import Mathlib

/-!
Shallow embedding of the certificate-processing core of this repository:
the reference-index builder `load_reference_data` and the student matcher
`process_student_data` of both source files, src/test.py and
src/streamlit_app.py, together with proofs of the behavioural properties
of the matching and merging logic.

Conventions of the embedding:
* a pandas cell is `Cell := Option String`; `none` models a missing value
  (NaN) and `pyStr` models Python `str(...)` on a cell (`str(nan)` is the
  string "nan");
* a data-frame row is an ordered association list from column name to
  cell, and a data frame is a column-name list plus a row list;
* Python dictionaries are ordered association lists: `setA` models
  `d[k] = v` (update in place when the key exists, else append at the
  end) and `lookupA` models `d.get(k)`;
* the diagnostic log is a list of `LogEntry` values, one constructor per
  distinct message the source appends, carrying the data interpolated
  into the message.
-/

namespace Cert

/-- A spreadsheet cell: `none` models a pandas missing value (NaN). -/
abbrev Cell := Option String

/-- Python `str(...)` applied to a cell; `str` of NaN is the string "nan". -/
def pyStr : Cell → String
  | none => "nan"
  | some s => s

/-- Whitespace as stripped by `str.strip()` (the repository's data contains
no whitespace beyond these ASCII characters). -/
def isSpaceChar (c : Char) : Bool :=
  c == ' ' || c == '\t' || c == '\n' || c == '\r'

/-- Python `str.strip()`. -/
def pyStrip (s : String) : String :=
  String.mk (((s.data.dropWhile isSpaceChar).reverse.dropWhile isSpaceChar).reverse)

/-- Python `s.startswith(pre)`. -/
def pyStartsWith (s pre : String) : Bool :=
  pre.data.isPrefixOf s.data

/-- First-match lookup in an ordered association list, modelling Python
`d.get(k)` (keys are unique in every list built by `setA`). -/
def lookupA {κ α : Type} [DecidableEq κ] : List (κ × α) → κ → Option α
  | [], _ => none
  | (k, v) :: t, k0 => if k = k0 then some v else lookupA t k0

/-- Python `d[k] = v`: replace the value in place when the key exists,
otherwise append the binding at the end. -/
def setA {κ α : Type} [DecidableEq κ] : List (κ × α) → κ → α → List (κ × α)
  | [], k0, v0 => [(k0, v0)]
  | (k, v) :: t, k0, v0 => if k = k0 then (k, v0) :: t else (k, v) :: setA t k0 v0

/-- Python `k in d`. -/
def containsA {κ α : Type} [DecidableEq κ] (m : List (κ × α)) (k : κ) : Bool :=
  (lookupA m k).isSome

/-- Two-level dictionary lookup `d[k][l]`, as an `Option`. -/
def lookup2 {κ β : Type} [DecidableEq κ]
    (m : List (κ × List (String × β))) (k : κ) (l : String) : Option β :=
  match lookupA m k with
  | none => none
  | some inner => lookupA inner l

/-- One row of the reference (skills) spreadsheet. -/
structure RefRow where
  discipline : Cell
  level : Cell
  description : Cell

/-- The parsed reference spreadsheet: which of the three expected columns
are present, and the rows. -/
structure RefTable where
  hasDiscipline : Bool
  hasLevel : Bool
  hasDescription : Bool
  rows : List RefRow

/-- The three recognised textual grade labels. -/
def valid_grades : List String := ["Удовлетворительно", "Хорошо", "Отлично"]

/-- The reference index built by src/test.py: discipline to
(textual level to description). -/
abbrev GradeMapT := List (String × List (String × String))

/-- The reference index built by src/streamlit_app.py: raw discipline cell
to (numeric level key to raw description cell). -/
abbrev GradeMapA := List (Cell × List (String × Cell))

/-- Lines 42-43 of src/test.py (and 37-38 of src/streamlit_app.py):
`if discipline not in grade_mapping: grade_mapping[discipline] = {}`. -/
def refTouch {κ β : Type} [DecidableEq κ] (m : List (κ × List (String × β)))
    (k0 : κ) : List (κ × List (String × β)) :=
  if containsA m k0 then m else setA m k0 []

/-- The key registration of `refTouch` followed by the nested assignment
`grade_mapping[discipline][level] = description` (line 46 of src/test.py,
line 48 of src/streamlit_app.py). -/
def refInsert {κ β : Type} [DecidableEq κ] (m : List (κ × List (String × β)))
    (k0 : κ) (l0 : String) (v0 : β) : List (κ × List (String × β)) :=
  let m1 := refTouch m k0
  setA m1 k0 (setA ((lookupA m1 k0).getD []) l0 v0)

/-- One iteration of the row loop of `load_reference_data` in src/test.py
(lines 33-46): read the three fields, each as the stripped `str` of the
cell when its column is present and as the empty string otherwise; skip
the row when any field is empty; otherwise register the discipline (with
an empty inner dictionary when new) and, when the level is one of the
three recognised labels, store the description under the textual level. -/
def refStep_test (tbl : RefTable) (m : GradeMapT) (r : RefRow) : GradeMapT :=
  let discipline := if tbl.hasDiscipline then pyStrip (pyStr r.discipline) else ""
  let level := if tbl.hasLevel then pyStrip (pyStr r.level) else ""
  let description := if tbl.hasDescription then pyStrip (pyStr r.description) else ""
  if discipline = "" ∨ level = "" ∨ description = "" then m
  else if level ∈ valid_grades then refInsert m discipline level description
  else refTouch m discipline

/-- `load_reference_data` of src/test.py (lines 19-54): fold the row loop
over the table, starting from an empty dictionary.  Absent columns never
raise here: every field access is guarded by a column check. -/
def load_reference_data_test (tbl : RefTable) : GradeMapT :=
  tbl.rows.foldl (refStep_test tbl) []

/-- The level-to-key mapping of src/streamlit_app.py (lines 41-45). -/
def level_key_mapping : List (String × String) :=
  [("Удовлетворительно", "3"), ("Хорошо", "4"), ("Отлично", "5")]

/-- The body of one iteration of the row loop of `load_reference_data` in
src/streamlit_app.py (lines 32-48) once the three column accesses have
succeeded: register the raw discipline cell (with an empty inner
dictionary when new) and, when the raw level value is a key of
`level_key_mapping`, store the raw description cell under the mapped
numeric key. -/
def refStep_app_ok (m : GradeMapA) (r : RefRow) : GradeMapA :=
  match r.level with
  | some s =>
    match lookupA level_key_mapping s with
    | some key => refInsert m r.discipline key r.description
    | none => refTouch m r.discipline
  | none => refTouch m r.discipline

/-- One iteration of the row loop of `load_reference_data` in
src/streamlit_app.py including the unguarded column accesses of lines
33-35: the first absent column (in access order discipline, level,
description) raises a `KeyError` naming that column. -/
def refStep_app (tbl : RefTable) (m : GradeMapA) (r : RefRow) : Except String GradeMapA :=
  if tbl.hasDiscipline = false then .error "Дисциплина"
  else if tbl.hasLevel = false then .error "Уровень_оценки"
  else if tbl.hasDescription = false then .error "Описание_навыков"
  else .ok (refStep_app_ok m r)

/-- The row loop of `load_reference_data` in src/streamlit_app.py: the
first raising row aborts the whole build. -/
def loadRowsApp (tbl : RefTable) (m : GradeMapA) : List RefRow → Except String GradeMapA
  | [] => .ok m
  | r :: rs =>
    match refStep_app tbl m r with
    | .error e => .error e
    | .ok m2 => loadRowsApp tbl m2 rs

/-- `load_reference_data` of src/streamlit_app.py (lines 19-53). -/
def load_reference_data_app (tbl : RefTable) : Except String GradeMapA :=
  loadRowsApp tbl [] tbl.rows

/-- One diagnostic line appended to the processing log, one constructor per
distinct message format of the two source files, carrying the values the
source interpolates into the message. -/
inductive LogEntry where
  | startProcessing (n : Nat)
  | refCount (n : Nat)
  | refKeys (ks : List String)
  | refKeysApp (ks : List Cell)
  | fileColumns (cs : List String)
  | studentHeader (s : String)
  | columnsMissing (n : Nat)
  | slotInfo (n : Nat) (d g : String)
  | emptySkip (n : Nat)
  | searching (d g : String)
  | unknownGrade (g : String)
  | gradeMapped (g k : String)
  | exactMatch (d : String)
  | disciplineNotFound (d : String)
  | availableKeys (ks : List Cell)
  | duplicateSkip (d g : String)
  | noDescription (g : String)
  | slotNameError (n : Nat)
  | added (d g : String)
  | addedFormatted (d : String)
  | finalResult (s : String)
  | finalEmpty
  | finalResultFor (name s : String)
  | processedCount (n : Nat)
  | droppedColumns (cs : List String)
  deriving DecidableEq

/-- A student-table row: an ordered association list from column name to
cell (one binding per column of the data frame). -/
abbrev Row := List (String × Cell)

/-- A data frame: the column names and the rows. -/
structure Table where
  columns : List String
  rows : List Row

/-- Reading the cell of a (present) column from a row. -/
def getCell (r : Row) (c : String) : Cell :=
  match lookupA r c with
  | some v => v
  | none => none

/-- Name of the n-th full-discipline column. -/
def disciplineCol (n : Nat) : String := "Дисциплина " ++ toString n

/-- Name of the n-th grade column. -/
def gradeCol (n : Nat) : String := "Оценка 5 баллов Дисциплина " ++ toString n

/-- Name of the n-th short-display-name column. -/
def shortNameCol (n : Nat) : String := "Название Дисциплины " ++ toString n

/-- Name of the appended result column. -/
def resultCol : String := "Итоговый результат"

/-- Python `sep.join(xs)`. -/
def joinSep (sep : String) : List String → String
  | [] => ""
  | [s] => s
  | s :: rest => s ++ sep ++ joinSep sep rest

/-- The per-student state of the slot loop of src/test.py: the ordered
result list, the set of already processed (discipline, grade) pairs
(modelled as a list, used only through membership), and the log so far. -/
structure SlotState where
  results : List String
  pairs : List (String × String)
  log : List LogEntry
  deriving DecidableEq

/-- The `full_discipline` of slot `n` in src/test.py (line 87): the
stripped `str` of the discipline cell when it is not NaN, else "". -/
def slotDiscipline (row : Row) (n : Nat) : String :=
  if (getCell row (disciplineCol n)).isSome
  then pyStrip (pyStr (getCell row (disciplineCol n))) else ""

/-- The raw `grade_value` of slot `n` (line 88 of src/test.py, line 89 of
src/streamlit_app.py). -/
def slotGradeCell (row : Row) (n : Nat) : Cell := getCell row (gradeCol n)

/-- The `clean_grade` of slot `n`: the stripped `str` of the grade cell. -/
def slotGrade (row : Row) (n : Nat) : String := pyStrip (pyStr (slotGradeCell row n))

/-- One iteration (discipline slot `n`) of the inner loop of
`process_student_data` in src/test.py (lines 77-129).  The branch reached
when the discipline is found but its inner dictionary has no entry for the
grade appends `slotNameError`: the log f-string of line 117 references the
undefined name `full_discлина`, so evaluating it raises a `NameError`
that the handler of line 128 catches and logs. -/
def processSlot_test (cols : List String) (row : Row) (gm : GradeMapT) (n : Nat)
    (st : SlotState) : SlotState :=
  if disciplineCol n ∉ cols ∨ gradeCol n ∉ cols then
    { st with log := st.log ++ [.columnsMissing n] }
  else
    let full_discipline := slotDiscipline row n
    let grade_value := slotGradeCell row n
    if full_discipline = "" ∨ grade_value.isNone then
      { st with log := st.log ++ [.emptySkip n] }
    else
      let clean_grade := slotGrade row n
      if clean_grade ∉ valid_grades then
        { st with log := st.log ++ [.unknownGrade clean_grade] }
      else if (full_discipline, clean_grade) ∈ st.pairs then
        { st with log := st.log ++ [.duplicateSkip full_discipline clean_grade] }
      else
        match lookupA gm full_discipline with
        | none => { st with log := st.log ++ [.disciplineNotFound full_discipline] }
        | some inner =>
          match lookupA inner clean_grade with
          | none => { st with log := st.log ++ [.slotNameError n] }
          | some result_text =>
            { results := st.results ++
                ["- " ++ full_discipline ++ " (" ++ clean_grade ++ "): " ++ result_text],
              pairs := st.pairs ++ [(full_discipline, clean_grade)],
              log := st.log ++ [.added full_discipline clean_grade] }

/-- The three slot iterations of src/test.py in order. -/
def processSlots_test (cols : List String) (row : Row) (gm : GradeMapT)
    (st : SlotState) : SlotState :=
  processSlot_test cols row gm 3
    (processSlot_test cols row gm 2 (processSlot_test cols row gm 1 st))

/-- The student identifier of src/test.py (line 69): the stripped mail
cell when the column is present and the cell is not NaN, else a
positional fallback name. -/
def studentEmail (cols : List String) (row : Row) (idx : Nat) : String :=
  if "Почта" ∈ cols ∧ (getCell row "Почта").isSome
  then pyStrip (pyStr (getCell row "Почта"))
  else "Студент " ++ toString (idx + 1)

/-- One iteration of the student loop of `process_student_data` in
src/test.py (lines 67-138): run the three slots and join the collected
entries with a single newline, the empty string when nothing matched. -/
def processRow_test (cols : List String) (gm : GradeMapT) (idx : Nat) (row : Row) :
    String × List LogEntry :=
  let st := processSlots_test cols row gm
    { results := [], pairs := [], log := [.studentHeader (studentEmail cols row idx)] }
  let final := if st.results ≠ [] then joinSep "\n" st.results else ""
  (final, st.log ++ [if final ≠ "" then .finalResult final else .finalEmpty])

/-- The student loop of src/test.py: one result string per row, logs
concatenated in row order. -/
def processRows_test (cols : List String) (gm : GradeMapT) (idx : Nat) :
    List Row → List String × List LogEntry
  | [] => ([], [])
  | r :: rs =>
    let p := processRow_test cols gm idx r
    let q := processRows_test cols gm (idx + 1) rs
    (p.1 :: q.1, p.2 ++ q.2)

/-- `process_student_data` of src/test.py (lines 56-152): prelude log,
student loop, result column assignment on a copy of the input, and the
drop of every column whose name starts with the short-display-name
prefix. -/
def process_student_data_test (tbl : Table) (gm : GradeMapT) : Table × List LogEntry :=
  let preludeLog : List LogEntry :=
    [.startProcessing tbl.rows.length, .refCount gm.length,
     .refKeys (gm.map Prod.fst), .fileColumns tbl.columns]
  let p := processRows_test tbl.columns gm 0 tbl.rows
  let log1 := preludeLog ++ p.2 ++ [.processedCount tbl.rows.length]
  let cols1 := if resultCol ∈ tbl.columns then tbl.columns else tbl.columns ++ [resultCol]
  let rows1 := List.zipWith (fun r s => setA r resultCol (some s)) tbl.rows p.1
  let columns_to_drop := cols1.filter (fun c => pyStartsWith c "Название Дисциплины ")
  if columns_to_drop ≠ [] then
    (⟨cols1.filter (fun c => ! pyStartsWith c "Название Дисциплины "),
      rows1.map (fun r => r.filter (fun b => ! pyStartsWith b.1 "Название Дисциплины "))⟩,
     log1 ++ [.droppedColumns columns_to_drop])
  else (⟨cols1, rows1⟩, log1)

/-- The grade-to-key mapping of `process_student_data` in
src/streamlit_app.py (lines 59-63). -/
def grade_column_mapping : List (String × String) :=
  [("Удовлетворительно", "3"), ("Хорошо", "4"), ("Отлично", "5")]

/-- Python lower-casing of one character: ASCII plus the Cyrillic range,
as used by `str.capitalize()` on this repository's data. -/
def pyLowerChar (c : Char) : Char :=
  if 0x410 ≤ c.toNat ∧ c.toNat ≤ 0x42F then Char.ofNat (c.toNat + 0x20)
  else if c.toNat = 0x401 then Char.ofNat 0x451
  else c.toLower

/-- Python upper-casing of one character: ASCII plus the Cyrillic range. -/
def pyUpperChar (c : Char) : Char :=
  if 0x430 ≤ c.toNat ∧ c.toNat ≤ 0x44F then Char.ofNat (c.toNat - 0x20)
  else if c.toNat = 0x451 then Char.ofNat 0x401
  else c.toUpper

/-- Python `str.capitalize()`: first character upper-cased, the rest
lower-cased. -/
def pyCapitalize (s : String) : String :=
  match s.data with
  | [] => ""
  | c :: cs => String.mk (pyUpperChar c :: cs.map pyLowerChar)

/-- The `full_discipline` of slot `n` in src/streamlit_app.py (line 88):
the stripped `str` of the discipline cell, with no NaN guard (a NaN cell
becomes the string "nan"). -/
def slotDisciplineApp (row : Row) (n : Nat) : String :=
  pyStrip (pyStr (getCell row (disciplineCol n)))

/-- The `formatted_discipline` of src/streamlit_app.py (lines 127-132):
the capitalised stripped short display name when its column is present,
else the full discipline. -/
def slotFormattedApp (cols : List String) (row : Row) (n : Nat) (fd : String) : String :=
  if shortNameCol n ∈ cols
  then pyCapitalize (pyStrip (pyStr (getCell row (shortNameCol n))))
  else fd

/-- One iteration (discipline slot `n`) of the inner loop of
`process_student_data` in src/streamlit_app.py (lines 80-144).  There is
no duplicate tracking in this file.  The `pd.isna` test of line 97 is
applied to `full_discipline` after it has been converted to a string, so
it never skips on the discipline; only a NaN grade cell skips.  The
condition of line 123 is Python truthiness of `target_discipline`
(set only when the lookup of line 116 succeeded) together with a repeated
membership test, hence: found and non-empty. -/
def processSlot_app (cols : List String) (row : Row) (gm : GradeMapA) (n : Nat)
    (st : List String × List LogEntry) : List String × List LogEntry :=
  let results := st.1
  let log := st.2
  if disciplineCol n ∈ cols ∧ gradeCol n ∈ cols then
    let full_discipline := slotDisciplineApp row n
    let grade_value := slotGradeCell row n
    let log := log ++ [.slotInfo n full_discipline (pyStr grade_value)]
    if grade_value.isNone then (results, log ++ [.emptySkip n])
    else
      let clean_grade := slotGrade row n
      let log := log ++ [.searching full_discipline clean_grade]
      match lookupA grade_column_mapping clean_grade with
      | none => (results, log ++ [.unknownGrade clean_grade])
      | some grade_key =>
        let log := log ++ [.gradeMapped clean_grade grade_key]
        let found := containsA gm (some full_discipline)
        let log :=
          if found then log ++ [.exactMatch full_discipline]
          else log ++ [.disciplineNotFound full_discipline,
                       .availableKeys ((gm.map Prod.fst).take 3)]
        if found ∧ full_discipline ≠ "" then
          match lookup2 gm (some full_discipline) grade_key with
          | some result_text =>
            let formatted_discipline := slotFormattedApp cols row n full_discipline
            (results ++ [formatted_discipline ++ ":\n" ++ pyStr result_text],
             log ++ [.addedFormatted formatted_discipline])
          | none => (results, log ++ [.noDescription clean_grade])
        else
          (results, log ++ [.disciplineNotFound full_discipline,
                            .availableKeys ((gm.map Prod.fst).take 3)])
  else
    (results, log ++ [.columnsMissing n])

/-- The three slot iterations of src/streamlit_app.py in order. -/
def processSlots_app (cols : List String) (row : Row) (gm : GradeMapA)
    (st : List String × List LogEntry) : List String × List LogEntry :=
  processSlot_app cols row gm 3
    (processSlot_app cols row gm 2 (processSlot_app cols row gm 1 st))

/-- The student identifier of src/streamlit_app.py (line 75): the first
cell of the row (as later string-interpolated), else a positional
fallback name. -/
def studentName (row : Row) (idx : Nat) : String :=
  match row with
  | [] => "Студент " ++ toString (idx + 1)
  | b :: _ => pyStr b.2

/-- One iteration of the student loop of `process_student_data` in
src/streamlit_app.py (lines 73-150): run the three slots and join the
collected entries with a double newline, the empty string when nothing
matched. -/
def processRow_app (cols : List String) (gm : GradeMapA) (idx : Nat) (row : Row) :
    String × List LogEntry :=
  let name := studentName row idx
  let st := processSlots_app cols row gm ([], [.studentHeader name])
  let final := if st.1 ≠ [] then joinSep "\n\n" st.1 else ""
  (final, st.2 ++ [.finalResultFor name final])

/-- The student loop of src/streamlit_app.py. -/
def processRows_app (cols : List String) (gm : GradeMapA) (idx : Nat) :
    List Row → List String × List LogEntry
  | [] => ([], [])
  | r :: rs =>
    let p := processRow_app cols gm idx r
    let q := processRows_app cols gm (idx + 1) rs
    (p.1 :: q.1, p.2 ++ q.2)

/-- `process_student_data` of src/streamlit_app.py (lines 55-158): prelude
log, student loop, and result column assignment on a copy of the input.
No column is dropped in this file. -/
def process_student_data_app (tbl : Table) (gm : GradeMapA) : Table × List LogEntry :=
  let preludeLog : List LogEntry :=
    [.startProcessing tbl.rows.length, .refCount gm.length,
     .refKeysApp (gm.map Prod.fst), .fileColumns tbl.columns]
  let p := processRows_app tbl.columns gm 0 tbl.rows
  let log1 := preludeLog ++ p.2 ++ [.processedCount tbl.rows.length]
  let cols1 := if resultCol ∈ tbl.columns then tbl.columns else tbl.columns ++ [resultCol]
  let rows1 := List.zipWith (fun r s => setA r resultCol (some s)) tbl.rows p.1
  (⟨cols1, rows1⟩, log1)

/-! ### Association-list lemmas -/

theorem lookupA_setA {κ α : Type} [DecidableEq κ] (m : List (κ × α)) (k k0 : κ) (v : α) :
    lookupA (setA m k v) k0 = if k = k0 then some v else lookupA m k0 := by
  induction m with
  | nil => simp [lookupA, setA]
  | cons b t ih =>
    obtain ⟨k1, v1⟩ := b
    by_cases h1 : k1 = k
    · subst h1
      by_cases h0 : k1 = k0 <;> simp [setA, lookupA, h0]
    · by_cases h0 : k1 = k0
      · subst h0
        have hk : ¬ k = k1 := fun h => h1 h.symm
        simp [setA, lookupA, h1, hk]
      · simp [setA, lookupA, h1, h0, ih]

theorem lookupA_eq_none_iff {κ α : Type} [DecidableEq κ] (m : List (κ × α)) (k : κ) :
    lookupA m k = none ↔ k ∉ m.map Prod.fst := by
  induction m with
  | nil => simp [lookupA]
  | cons b t ih =>
    obtain ⟨k1, v1⟩ := b
    by_cases h1 : k1 = k <;> simp [lookupA, h1, ih, Ne.symm]

theorem lookupA_filter_key {κ α : Type} [DecidableEq κ]
    (m : List (κ × α)) (p : κ → Bool) (k : κ) :
    lookupA (m.filter (fun b => p b.1)) k = if p k then lookupA m k else none := by
  induction m with
  | nil => simp [lookupA]
  | cons b t ih =>
    obtain ⟨k1, v1⟩ := b
    by_cases h1 : k1 = k
    · subst h1
      by_cases hp : p k1 <;> simp [lookupA, hp, ih]
    · by_cases hp : p k1 <;> simp [lookupA, hp, h1, ih]

theorem keys_setA {κ α : Type} [DecidableEq κ] (m : List (κ × α)) (k : κ) (v : α) :
    (setA m k v).map Prod.fst =
      if containsA m k then m.map Prod.fst else m.map Prod.fst ++ [k] := by
  induction m with
  | nil => simp [setA, containsA, lookupA]
  | cons b t ih =>
    obtain ⟨k1, v1⟩ := b
    by_cases h1 : k1 = k <;>
      simp [setA, containsA, lookupA, h1, ih] <;>
      split <;> simp_all [containsA]

/-! ### Last-write-wins for the reference builders -/

/-- The (outer key, inner key, value) triple a src/test.py reference row
inserts into the index, `none` when the row is skipped or its level is
not recognised.  Mirrors the guard structure of `refStep_test`. -/
def refYield_test (tbl : RefTable) (r : RefRow) : Option (String × String × String) :=
  let discipline := if tbl.hasDiscipline then pyStrip (pyStr r.discipline) else ""
  let level := if tbl.hasLevel then pyStrip (pyStr r.level) else ""
  let description := if tbl.hasDescription then pyStrip (pyStr r.description) else ""
  if discipline = "" ∨ level = "" ∨ description = "" then none
  else if level ∈ valid_grades then some (discipline, level, description)
  else none

/-- The (outer key, inner key, value) triple a src/streamlit_app.py
reference row inserts, `none` when the raw level is unrecognised. -/
def refYield_app (r : RefRow) : Option (Cell × String × Cell) :=
  match r.level with
  | some s =>
    match lookupA level_key_mapping s with
    | some key => some (r.discipline, key, r.description)
    | none => none
  | none => none

theorem lookupA_of_not_contains {κ α : Type} [DecidableEq κ]
    (m : List (κ × α)) (k : κ) (h : ¬ containsA m k = true) : lookupA m k = none := by
  cases hl : lookupA m k with
  | none => rfl
  | some v => exact absurd (by simp [containsA, hl]) h

theorem lookup2_refTouch {κ β : Type} [DecidableEq κ]
    (m : List (κ × List (String × β))) (k0 k : κ) (l : String) :
    lookup2 (refTouch m k0) k l = lookup2 m k l := by
  unfold refTouch
  by_cases hc : containsA m k0
  · simp [hc]
  · have hnone := lookupA_of_not_contains m k0 hc
    by_cases hk : k0 = k
    · subst hk
      simp [hc, lookup2, lookupA_setA, hnone, lookupA]
    · simp [hc, lookup2, lookupA_setA, hk]

theorem lookup2_refInsert {κ β : Type} [DecidableEq κ]
    (m : List (κ × List (String × β))) (k0 : κ) (l0 : String) (v0 : β)
    (k : κ) (l : String) :
    lookup2 (refInsert m k0 l0 v0) k l =
      if k0 = k ∧ l0 = l then some v0 else lookup2 m k l := by
  unfold refInsert refTouch
  by_cases hk : k0 = k
  · subst hk
    by_cases hc : containsA m k0
    · obtain ⟨inner, hinner⟩ := Option.isSome_iff_exists.mp hc
      by_cases hl : l0 = l <;>
        simp [hc, lookup2, lookupA_setA, hinner, hl]
    · have hnone := lookupA_of_not_contains m k0 hc
      by_cases hl : l0 = l <;>
        simp [hc, lookup2, lookupA_setA, hnone, lookupA, hl]
  · by_cases hc : containsA m k0 <;>
      simp [hc, lookup2, lookupA_setA, hk]

theorem lookup2_refStep_test (tbl : RefTable) (m : GradeMapT) (r : RefRow)
    (d l : String) :
    lookup2 (refStep_test tbl m r) d l =
      match refYield_test tbl r with
      | some t => if t.1 = d ∧ t.2.1 = l then some t.2.2 else lookup2 m d l
      | none => lookup2 m d l := by
  unfold refStep_test refYield_test
  generalize (if tbl.hasDiscipline = true then pyStrip (pyStr r.discipline) else "") = d0
  generalize (if tbl.hasLevel = true then pyStrip (pyStr r.level) else "") = l0
  generalize (if tbl.hasDescription = true then pyStrip (pyStr r.description) else "") = c0
  by_cases hskip : d0 = "" ∨ l0 = "" ∨ c0 = ""
  · simp [hskip]
  · by_cases hval : l0 ∈ valid_grades
    · simp [hskip, hval, lookup2_refInsert]
    · simp [hskip, hval, lookup2_refTouch]

theorem lookup2_refStep_app_ok (m : GradeMapA) (r : RefRow) (d : Cell) (l : String) :
    lookup2 (refStep_app_ok m r) d l =
      match refYield_app r with
      | some t => if t.1 = d ∧ t.2.1 = l then some t.2.2 else lookup2 m d l
      | none => lookup2 m d l := by
  unfold refStep_app_ok refYield_app
  cases r.level with
  | none => simp [lookup2_refTouch]
  | some s =>
    cases hk : lookupA level_key_mapping s with
    | none => simp [hk, lookup2_refTouch]
    | some key => simp [hk, lookup2_refInsert]

/-- The value produced by the last element of the list (in list order) on
which `f` fires, if any. -/
def lastYield {R V : Type} (f : R → Option V) : List R → Option V
  | [] => none
  | r :: rs =>
    match lastYield f rs with
    | some v => some v
    | none => f r

theorem lastYield_eq_none_iff {R V : Type} (f : R → Option V) (rows : List R) :
    lastYield f rows = none ↔ ∀ r ∈ rows, f r = none := by
  induction rows with
  | nil => simp [lastYield]
  | cons r rs ih =>
    cases h : lastYield f rs with
    | none =>
      have hall := ih.mp h
      simp only [lastYield, h]
      constructor
      · intro hr a ha
        rcases List.mem_cons.mp ha with h1 | h2
        · exact h1 ▸ hr
        · exact hall a h2
      · intro hc; exact hc r (by simp)
    | some v =>
      simp only [lastYield, h]
      constructor
      · intro hc; exact absurd hc (by simp)
      · intro hall
        exact absurd (ih.mpr (fun a ha => hall a (by simp [ha]))) (by simp [h])

/-- `orO a b` is `a` when `a` fires, else `b` (left-biased choice). -/
def orO {V : Type} (a b : Option V) : Option V :=
  match a with
  | some v => some v
  | none => b

/-- Generic last-write-wins fact for a fold of single-key insert steps,
at a fixed lookup `lk` (the lookup of one fixed key): the lookup after
the fold is the value inserted by the last row that writes the key, else
the lookup in the start map. -/
theorem lookup_foldl_lastWrite {M R V : Type}
    (step : M → R → M) (lk : M → Option V) (f : R → Option V)
    (hstep : ∀ m r, lk (step m r) = orO (f r) (lk m)) :
    ∀ (rows : List R) (m : M),
      lk (rows.foldl step m) = orO (lastYield f rows) (lk m) := by
  intro rows
  induction rows with
  | nil => intro m; simp [lastYield, orO]
  | cons r rs ih =>
    intro m
    rw [List.foldl_cons, ih]
    cases hrest : lastYield f rs with
    | some v => simp [lastYield, hrest, orO]
    | none =>
      simp only [lastYield, hrest, orO]
      rw [hstep]
      rfl

/-- The keyed yield of a src/test.py reference row: the description it
writes at (discipline, level) pair `k`, if any. -/
def keyYieldT (tbl : RefTable) (k : String × String) (r : RefRow) : Option String :=
  match refYield_test tbl r with
  | some t => if t.1 = k.1 ∧ t.2.1 = k.2 then some t.2.2 else none
  | none => none

theorem hstep_test (tbl : RefTable) (k : String × String)
    (m : GradeMapT) (r : RefRow) :
    lookup2 (refStep_test tbl m r) k.1 k.2 =
      orO (keyYieldT tbl k r) (lookup2 m k.1 k.2) := by
  rw [lookup2_refStep_test]
  unfold keyYieldT
  cases hy2 : refYield_test tbl r with
  | none => simp [orO]
  | some t =>
    by_cases hk : t.1 = k.1 ∧ t.2.1 = k.2 <;> simp [hk, orO]

theorem lookup2_load_test (tbl : RefTable) (k : String × String) :
    lookup2 (load_reference_data_test tbl) k.1 k.2 =
      orO (lastYield (keyYieldT tbl k) tbl.rows) none := by
  unfold load_reference_data_test
  exact lookup_foldl_lastWrite (refStep_test tbl)
    (fun m => lookup2 m k.1 k.2) (keyYieldT tbl k)
    (hstep_test tbl k) tbl.rows []

/-- The keyed yield of a src/streamlit_app.py reference row. -/
def keyYieldA (k : Cell × String) (r : RefRow) : Option Cell :=
  match refYield_app r with
  | some t => if t.1 = k.1 ∧ t.2.1 = k.2 then some t.2.2 else none
  | none => none

theorem hstep_app (k : Cell × String) (m : GradeMapA) (r : RefRow) :
    lookup2 (refStep_app_ok m r) k.1 k.2 =
      orO (keyYieldA k r) (lookup2 m k.1 k.2) := by
  rw [lookup2_refStep_app_ok]
  unfold keyYieldA
  cases hy2 : refYield_app r with
  | none => simp [orO]
  | some t =>
    by_cases hk : t.1 = k.1 ∧ t.2.1 = k.2 <;> simp [hk, orO]

theorem loadRowsApp_ok (tbl : RefTable) (hd : tbl.hasDiscipline = true)
    (hl : tbl.hasLevel = true) (hc : tbl.hasDescription = true) :
    ∀ (rows : List RefRow) (m : GradeMapA),
      loadRowsApp tbl m rows = .ok (rows.foldl refStep_app_ok m) := by
  intro rows
  induction rows with
  | nil => intro m; simp [loadRowsApp]
  | cons r rs ih => intro m; simp [loadRowsApp, refStep_app, hd, hl, hc, ih]

theorem lookup2_load_app (tbl : RefTable) (hd : tbl.hasDiscipline = true)
    (hl : tbl.hasLevel = true) (hc : tbl.hasDescription = true) (k : Cell × String) :
    load_reference_data_app tbl = .ok (tbl.rows.foldl refStep_app_ok []) ∧
    lookup2 (tbl.rows.foldl refStep_app_ok []) k.1 k.2 =
      orO (lastYield (keyYieldA k) tbl.rows) none := by
  constructor
  · unfold load_reference_data_app
    exact loadRowsApp_ok tbl hd hl hc tbl.rows []
  · exact lookup_foldl_lastWrite refStep_app_ok
      (fun m => lookup2 m k.1 k.2) (keyYieldA k)
      (hstep_app k) tbl.rows []

/-- C1: for every reference source row with a recognised grade label and
non-empty discipline/description, building the index and looking up that
row's (normalised discipline, grade) key returns exactly that row's
description, and when the same key occurs in several rows the stored
description is the one from the last such row (last-write-wins).  First
conjunct: the builder of src/test.py (normalisation is stripping, the
inner key is the textual level).  Second conjunct: the builder of
src/streamlit_app.py (the discipline cell is used raw and the inner key
is the mapped numeric level key), assuming the three required columns are
present so that the build succeeds. -/
theorem c1_reference_index_last_write_wins :
    (∀ (tbl : RefTable) (pre post : List RefRow) (r : RefRow) (d l desc : String),
      tbl.rows = pre ++ r :: post →
      refYield_test tbl r = some (d, l, desc) →
      (∀ r2 ∈ post, ∀ desc2, refYield_test tbl r2 ≠ some (d, l, desc2)) →
      lookup2 (load_reference_data_test tbl) d l = some desc)
    ∧
    (∀ (tbl : RefTable) (pre post : List RefRow) (r : RefRow) (dc : Cell)
        (key : String) (desc : Cell),
      tbl.hasDiscipline = true → tbl.hasLevel = true → tbl.hasDescription = true →
      tbl.rows = pre ++ r :: post →
      refYield_app r = some (dc, key, desc) →
      (∀ r2 ∈ post, ∀ desc2, refYield_app r2 ≠ some (dc, key, desc2)) →
      ∃ m, load_reference_data_app tbl = .ok m ∧ lookup2 m dc key = some desc) := by
  constructor
  · intro tbl pre post r d l desc hrows hy hlast
    have hmain := lookup2_load_test tbl (d, l)
    rw [hrows] at hmain
    have hpost : lastYield (keyYieldT tbl (d, l)) post = none := by
      rw [lastYield_eq_none_iff]
      intro r2 hr2
      unfold keyYieldT
      cases hy2 : refYield_test tbl r2 with
      | none => simp
      | some t =>
        obtain ⟨t1, t2, t3⟩ := t
        by_cases hk : t1 = d ∧ t2 = l
        · exact absurd (hk.1 ▸ hk.2 ▸ hy2) (hlast r2 hr2 t3)
        · simp [hk]
    have hr : keyYieldT tbl (d, l) r = some desc := by
      unfold keyYieldT
      simp [hy]
    have hsplit : lastYield (keyYieldT tbl (d, l)) (pre ++ r :: post) = some desc := by
      have hgen : ∀ (xs : List RefRow),
          lastYield (keyYieldT tbl (d, l)) (xs ++ r :: post) = some desc := by
        intro xs
        induction xs with
        | nil => simp [lastYield, hpost, hr]
        | cons x xt ih => simp [lastYield, ih]
      exact hgen pre
    rw [hsplit] at hmain
    exact hmain
  · intro tbl pre post r dc key desc hd hl hc hrows hy hlast
    obtain ⟨hok, hmain⟩ := lookup2_load_app tbl hd hl hc (dc, key)
    refine ⟨tbl.rows.foldl refStep_app_ok [], hok, ?_⟩
    rw [hrows]
    rw [hrows] at hmain
    have hpost : lastYield (keyYieldA (dc, key)) post = none := by
      rw [lastYield_eq_none_iff]
      intro r2 hr2
      unfold keyYieldA
      cases hy2 : refYield_app r2 with
      | none => simp
      | some t =>
        obtain ⟨t1, t2, t3⟩ := t
        by_cases hk : t1 = dc ∧ t2 = key
        · exact absurd (hk.1 ▸ hk.2 ▸ hy2) (hlast r2 hr2 t3)
        · simp [hk]
    have hr : keyYieldA (dc, key) r = some desc := by
      unfold keyYieldA
      simp [hy]
    have hsplit : lastYield (keyYieldA (dc, key)) (pre ++ r :: post) = some desc := by
      have hgen : ∀ (xs : List RefRow),
          lastYield (keyYieldA (dc, key)) (xs ++ r :: post) = some desc := by
        intro xs
        induction xs with
        | nil => simp [lastYield, hpost, hr]
        | cons x xt ih => simp [lastYield, ih]
      exact hgen pre
    rw [hsplit] at hmain
    exact hmain

/-- Witness for C1: both builders evaluated on concrete two-row tables in
which the key is written twice; the lookup returns the later description. -/
theorem c1_witness :
    lookup2 (load_reference_data_test
      ⟨true, true, true,
        [⟨some "Математика", some "Хорошо", some "первое"⟩,
         ⟨some " Математика ", some "Хорошо", some "второе"⟩]⟩) "Математика" "Хорошо"
      = some "второе" ∧
    (∃ m, load_reference_data_app
      ⟨true, true, true,
        [⟨some "Ф", some "Отлично", some "a"⟩,
         ⟨some "Ф", some "Отлично", some "b"⟩]⟩ = .ok m ∧
      lookup2 m (some "Ф") "5" = some (some "b")) := by
  constructor
  · exact c1_reference_index_last_write_wins.1
      ⟨true, true, true,
        [⟨some "Математика", some "Хорошо", some "первое"⟩,
         ⟨some " Математика ", some "Хорошо", some "второе"⟩]⟩
      [⟨some "Математика", some "Хорошо", some "первое"⟩] []
      ⟨some " Математика ", some "Хорошо", some "второе"⟩
      "Математика" "Хорошо" "второе" rfl (by decide) (by simp)
  · exact c1_reference_index_last_write_wins.2
      ⟨true, true, true,
        [⟨some "Ф", some "Отлично", some "a"⟩,
         ⟨some "Ф", some "Отлично", some "b"⟩]⟩
      [⟨some "Ф", some "Отлично", some "a"⟩] []
      ⟨some "Ф", some "Отлично", some "b"⟩
      (some "Ф") "5" (some "b") rfl rfl rfl rfl (by decide) (by simp)

/-! ### Branch characterisations of the slot loop of src/test.py -/

theorem slotT_missingCols (cols : List String) (row : Row) (gm : GradeMapT)
    (n : Nat) (st : SlotState) (h : disciplineCol n ∉ cols ∨ gradeCol n ∉ cols) :
    processSlot_test cols row gm n st = { st with log := st.log ++ [.columnsMissing n] } := by
  simp [processSlot_test, h]

theorem slotT_emptySkip (cols : List String) (row : Row) (gm : GradeMapT)
    (n : Nat) (st : SlotState)
    (h1 : disciplineCol n ∈ cols) (h2 : gradeCol n ∈ cols)
    (h3 : slotDiscipline row n = "" ∨ (slotGradeCell row n).isNone) :
    processSlot_test cols row gm n st = { st with log := st.log ++ [.emptySkip n] } := by
  rcases h3 with h | h <;> simp [processSlot_test, h1, h2, h]

theorem slotT_unknownGrade (cols : List String) (row : Row) (gm : GradeMapT)
    (n : Nat) (st : SlotState)
    (h1 : disciplineCol n ∈ cols) (h2 : gradeCol n ∈ cols)
    (hd : slotDiscipline row n ≠ "") (hg : (slotGradeCell row n).isNone = false)
    (hv : slotGrade row n ∉ valid_grades) :
    processSlot_test cols row gm n st =
      { st with log := st.log ++ [.unknownGrade (slotGrade row n)] } := by
  simp [processSlot_test, h1, h2, hd, hg, hv]

theorem slotT_duplicate (cols : List String) (row : Row) (gm : GradeMapT)
    (n : Nat) (st : SlotState)
    (h1 : disciplineCol n ∈ cols) (h2 : gradeCol n ∈ cols)
    (hd : slotDiscipline row n ≠ "") (hg : (slotGradeCell row n).isNone = false)
    (hv : slotGrade row n ∈ valid_grades)
    (hp : (slotDiscipline row n, slotGrade row n) ∈ st.pairs) :
    processSlot_test cols row gm n st =
      { st with log := st.log ++
          [.duplicateSkip (slotDiscipline row n) (slotGrade row n)] } := by
  simp [processSlot_test, h1, h2, hd, hg, hv, hp]

theorem slotT_notFound (cols : List String) (row : Row) (gm : GradeMapT)
    (n : Nat) (st : SlotState)
    (h1 : disciplineCol n ∈ cols) (h2 : gradeCol n ∈ cols)
    (hd : slotDiscipline row n ≠ "") (hg : (slotGradeCell row n).isNone = false)
    (hv : slotGrade row n ∈ valid_grades)
    (hp : (slotDiscipline row n, slotGrade row n) ∉ st.pairs)
    (hl : lookupA gm (slotDiscipline row n) = none) :
    processSlot_test cols row gm n st =
      { st with log := st.log ++ [.disciplineNotFound (slotDiscipline row n)] } := by
  simp [processSlot_test, h1, h2, hd, hg, hv, hp, hl]

theorem slotT_nameError (cols : List String) (row : Row) (gm : GradeMapT)
    (n : Nat) (st : SlotState) (inner : List (String × String))
    (h1 : disciplineCol n ∈ cols) (h2 : gradeCol n ∈ cols)
    (hd : slotDiscipline row n ≠ "") (hg : (slotGradeCell row n).isNone = false)
    (hv : slotGrade row n ∈ valid_grades)
    (hp : (slotDiscipline row n, slotGrade row n) ∉ st.pairs)
    (hl : lookupA gm (slotDiscipline row n) = some inner)
    (ht : lookupA inner (slotGrade row n) = none) :
    processSlot_test cols row gm n st =
      { st with log := st.log ++ [.slotNameError n] } := by
  simp [processSlot_test, h1, h2, hd, hg, hv, hp, hl, ht]

theorem slotT_added (cols : List String) (row : Row) (gm : GradeMapT)
    (n : Nat) (st : SlotState) (inner : List (String × String)) (txt : String)
    (h1 : disciplineCol n ∈ cols) (h2 : gradeCol n ∈ cols)
    (hd : slotDiscipline row n ≠ "") (hg : (slotGradeCell row n).isNone = false)
    (hv : slotGrade row n ∈ valid_grades)
    (hp : (slotDiscipline row n, slotGrade row n) ∉ st.pairs)
    (hl : lookupA gm (slotDiscipline row n) = some inner)
    (ht : lookupA inner (slotGrade row n) = some txt) :
    processSlot_test cols row gm n st =
      ⟨st.results ++
         ["- " ++ slotDiscipline row n ++ " (" ++ slotGrade row n ++ "): " ++ txt],
       st.pairs ++ [(slotDiscipline row n, slotGrade row n)],
       st.log ++ [.added (slotDiscipline row n) (slotGrade row n)]⟩ := by
  simp [processSlot_test, h1, h2, hd, hg, hv, hp, hl, ht]

/-- In src/test.py a slot whose discipline is not a key of the reference
index never changes the result list or the processed-pairs set. -/
theorem slotT_frame_of_notFound (cols : List String) (row : Row) (gm : GradeMapT)
    (n : Nat) (st : SlotState)
    (hl : lookupA gm (slotDiscipline row n) = none) :
    (processSlot_test cols row gm n st).results = st.results ∧
    (processSlot_test cols row gm n st).pairs = st.pairs := by
  simp only [processSlot_test]
  split
  · simp
  · split
    · simp
    · split
      · simp
      · split
        · simp
        · simp [hl]

/-! ### Branch characterisations of the slot loop of src/streamlit_app.py -/

theorem slotA_missingCols (cols : List String) (row : Row) (gm : GradeMapA)
    (n : Nat) (st : List String × List LogEntry)
    (h : ¬ (disciplineCol n ∈ cols ∧ gradeCol n ∈ cols)) :
    processSlot_app cols row gm n st = (st.1, st.2 ++ [.columnsMissing n]) := by
  simp [processSlot_app, h]

theorem slotA_added (cols : List String) (row : Row) (gm : GradeMapA)
    (n : Nat) (st : List String × List LogEntry) (gk : String) (txt : Cell)
    (h1 : disciplineCol n ∈ cols) (h2 : gradeCol n ∈ cols)
    (hg : (slotGradeCell row n).isNone = false)
    (hk : lookupA grade_column_mapping (slotGrade row n) = some gk)
    (hf : containsA gm (some (slotDisciplineApp row n)) = true)
    (hne : slotDisciplineApp row n ≠ "")
    (ht : lookup2 gm (some (slotDisciplineApp row n)) gk = some txt) :
    processSlot_app cols row gm n st =
      (st.1 ++ [slotFormattedApp cols row n (slotDisciplineApp row n) ++ ":\n" ++ pyStr txt],
       st.2 ++ [.slotInfo n (slotDisciplineApp row n) (pyStr (slotGradeCell row n)),
                .searching (slotDisciplineApp row n) (slotGrade row n),
                .gradeMapped (slotGrade row n) gk,
                .exactMatch (slotDisciplineApp row n),
                .addedFormatted (slotFormattedApp cols row n (slotDisciplineApp row n))]) := by
  simp [processSlot_app, h1, h2, hg, hk, hf, hne, ht]

theorem slotA_notFound (cols : List String) (row : Row) (gm : GradeMapA)
    (n : Nat) (st : List String × List LogEntry) (gk : String)
    (h1 : disciplineCol n ∈ cols) (h2 : gradeCol n ∈ cols)
    (hg : (slotGradeCell row n).isNone = false)
    (hk : lookupA grade_column_mapping (slotGrade row n) = some gk)
    (hf : containsA gm (some (slotDisciplineApp row n)) = false) :
    processSlot_app cols row gm n st =
      (st.1,
       st.2 ++ [.slotInfo n (slotDisciplineApp row n) (pyStr (slotGradeCell row n)),
                .searching (slotDisciplineApp row n) (slotGrade row n),
                .gradeMapped (slotGrade row n) gk,
                .disciplineNotFound (slotDisciplineApp row n),
                .availableKeys ((gm.map Prod.fst).take 3),
                .disciplineNotFound (slotDisciplineApp row n),
                .availableKeys ((gm.map Prod.fst).take 3)]) := by
  simp [processSlot_app, h1, h2, hg, hk, hf]

theorem slotA_noDescription (cols : List String) (row : Row) (gm : GradeMapA)
    (n : Nat) (st : List String × List LogEntry) (gk : String)
    (h1 : disciplineCol n ∈ cols) (h2 : gradeCol n ∈ cols)
    (hg : (slotGradeCell row n).isNone = false)
    (hk : lookupA grade_column_mapping (slotGrade row n) = some gk)
    (hf : containsA gm (some (slotDisciplineApp row n)) = true)
    (hne : slotDisciplineApp row n ≠ "")
    (ht : lookup2 gm (some (slotDisciplineApp row n)) gk = none) :
    processSlot_app cols row gm n st =
      (st.1,
       st.2 ++ [.slotInfo n (slotDisciplineApp row n) (pyStr (slotGradeCell row n)),
                .searching (slotDisciplineApp row n) (slotGrade row n),
                .gradeMapped (slotGrade row n) gk,
                .exactMatch (slotDisciplineApp row n),
                .noDescription (slotGrade row n)]) := by
  simp [processSlot_app, h1, h2, hg, hk, hf, hne, ht]

/-- In src/streamlit_app.py a slot whose discipline is not a key of the
reference index never changes the result list. -/
theorem slotA_frame_of_notFound (cols : List String) (row : Row) (gm : GradeMapA)
    (n : Nat) (st : List String × List LogEntry)
    (hf : containsA gm (some (slotDisciplineApp row n)) = false) :
    (processSlot_app cols row gm n st).1 = st.1 := by
  by_cases h1 : disciplineCol n ∈ cols ∧ gradeCol n ∈ cols
  · by_cases h2 : (slotGradeCell row n).isNone
    · simp [processSlot_app, h1, h2]
    · cases hk : lookupA grade_column_mapping (slotGrade row n) with
      | none => simp [processSlot_app, h1, h2, hk]
      | some gk => simp [processSlot_app, h1, h2, hk, hf]
  · simp [processSlot_app, h1]

/-- In src/test.py a slot whose (discipline, grade) key is absent from
the reference index — the discipline missing, or the discipline present
with no stored description for the grade — never changes the result list
or the processed-pairs set. -/
theorem slotT_frame_of_noMatch (cols : List String) (row : Row) (gm : GradeMapT)
    (n : Nat) (st : SlotState)
    (hl : lookup2 gm (slotDiscipline row n) (slotGrade row n) = none) :
    (processSlot_test cols row gm n st).results = st.results ∧
    (processSlot_test cols row gm n st).pairs = st.pairs := by
  simp only [processSlot_test]
  split
  · simp
  · split
    · simp
    · split
      · simp
      · split
        · simp
        · cases hx : lookupA gm (slotDiscipline row n) with
          | none => simp [hx]
          | some inner =>
            have hinner : lookupA inner (slotGrade row n) = none := by
              unfold lookup2 at hl
              rw [hx] at hl
              exact hl
            simp [hx, hinner]

/-- The src/streamlit_app.py analogue of `slotT_frame_of_noMatch`: a slot
whose discipline is absent from the index, or present with no stored
description under the slot's mapped grade key, never changes the result
list. -/
theorem slotA_frame_of_noMatch (cols : List String) (row : Row) (gm : GradeMapA)
    (n : Nat) (st : List String × List LogEntry)
    (hl : ∀ gk, lookupA grade_column_mapping (slotGrade row n) = some gk →
      lookup2 gm (some (slotDisciplineApp row n)) gk = none) :
    (processSlot_app cols row gm n st).1 = st.1 := by
  by_cases h1 : disciplineCol n ∈ cols ∧ gradeCol n ∈ cols
  · by_cases h2 : (slotGradeCell row n).isNone
    · simp [processSlot_app, h1, h2]
    · cases hk : lookupA grade_column_mapping (slotGrade row n) with
      | none => simp [processSlot_app, h1, h2, hk]
      | some gk =>
        have hnone := hl gk hk
        by_cases hf : containsA gm (some (slotDisciplineApp row n)) = true
        · by_cases hne : slotDisciplineApp row n ≠ ""
          · simp [processSlot_app, h1, h2, hk, hf, hne, hnone]
          · simp [processSlot_app, h1, h2, hk, hf, hne]
        · simp [processSlot_app, h1, h2, hk, hf]
  · simp [processSlot_app, h1]

/-! ### Row- and table-level helper lemmas -/

/-- A student row all of whose slot disciplines are absent from the
reference index collects no entries in src/test.py, so its final result
is the empty string. -/
theorem processRow_test_empty_of_all_notFound (cols : List String) (row : Row)
    (gm : GradeMapT) (idx : Nat)
    (hall : ∀ n ∈ ([1, 2, 3] : List Nat), lookupA gm (slotDiscipline row n) = none) :
    (processRow_test cols gm idx row).1 = "" := by
  unfold processRow_test
  have e1 := slotT_frame_of_notFound cols row gm 1
    ⟨[], [], [.studentHeader (studentEmail cols row idx)]⟩ (hall 1 (by simp))
  have e2 := slotT_frame_of_notFound cols row gm 2
    (processSlot_test cols row gm 1
      ⟨[], [], [.studentHeader (studentEmail cols row idx)]⟩) (hall 2 (by simp))
  have e3 := slotT_frame_of_notFound cols row gm 3
    (processSlot_test cols row gm 2 (processSlot_test cols row gm 1
      ⟨[], [], [.studentHeader (studentEmail cols row idx)]⟩)) (hall 3 (by simp))
  simp only [processSlots_test]
  rw [e3.1, e2.1, e1.1]
  simp

/-- The src/streamlit_app.py analogue of
`processRow_test_empty_of_all_notFound`. -/
theorem processRow_app_empty_of_all_notFound (cols : List String) (row : Row)
    (gm : GradeMapA) (idx : Nat)
    (hall : ∀ n ∈ ([1, 2, 3] : List Nat),
      containsA gm (some (slotDisciplineApp row n)) = false) :
    (processRow_app cols gm idx row).1 = "" := by
  unfold processRow_app
  have e1 := slotA_frame_of_notFound cols row gm 1
    ([], [.studentHeader (studentName row idx)]) (hall 1 (by simp))
  have e2 := slotA_frame_of_notFound cols row gm 2
    (processSlot_app cols row gm 1 ([], [.studentHeader (studentName row idx)]))
    (hall 2 (by simp))
  have e3 := slotA_frame_of_notFound cols row gm 3
    (processSlot_app cols row gm 2 (processSlot_app cols row gm 1
      ([], [.studentHeader (studentName row idx)]))) (hall 3 (by simp))
  simp only [processSlots_app]
  rw [e3, e2, e1]
  simp

/-- A student row whose every slot references a (discipline, grade) key
absent from the reference index — the discipline missing, or present
with no description stored for the grade — collects no entries in
src/test.py, so its final result is the empty string. -/
theorem processRow_test_empty_of_no_match (cols : List String) (row : Row)
    (gm : GradeMapT) (idx : Nat)
    (hall : ∀ n ∈ ([1, 2, 3] : List Nat),
      lookup2 gm (slotDiscipline row n) (slotGrade row n) = none) :
    (processRow_test cols gm idx row).1 = "" := by
  unfold processRow_test
  have e1 := slotT_frame_of_noMatch cols row gm 1
    ⟨[], [], [.studentHeader (studentEmail cols row idx)]⟩ (hall 1 (by simp))
  have e2 := slotT_frame_of_noMatch cols row gm 2
    (processSlot_test cols row gm 1
      ⟨[], [], [.studentHeader (studentEmail cols row idx)]⟩) (hall 2 (by simp))
  have e3 := slotT_frame_of_noMatch cols row gm 3
    (processSlot_test cols row gm 2 (processSlot_test cols row gm 1
      ⟨[], [], [.studentHeader (studentEmail cols row idx)]⟩)) (hall 3 (by simp))
  simp only [processSlots_test]
  rw [e3.1, e2.1, e1.1]
  simp

/-- The src/streamlit_app.py analogue of
`processRow_test_empty_of_no_match`. -/
theorem processRow_app_empty_of_no_match (cols : List String) (row : Row)
    (gm : GradeMapA) (idx : Nat)
    (hall : ∀ n ∈ ([1, 2, 3] : List Nat), ∀ gk,
      lookupA grade_column_mapping (slotGrade row n) = some gk →
      lookup2 gm (some (slotDisciplineApp row n)) gk = none) :
    (processRow_app cols gm idx row).1 = "" := by
  unfold processRow_app
  have e1 := slotA_frame_of_noMatch cols row gm 1
    ([], [.studentHeader (studentName row idx)]) (hall 1 (by simp))
  have e2 := slotA_frame_of_noMatch cols row gm 2
    (processSlot_app cols row gm 1 ([], [.studentHeader (studentName row idx)]))
    (hall 2 (by simp))
  have e3 := slotA_frame_of_noMatch cols row gm 3
    (processSlot_app cols row gm 2 (processSlot_app cols row gm 1
      ([], [.studentHeader (studentName row idx)]))) (hall 3 (by simp))
  simp only [processSlots_app]
  rw [e3, e2, e1]
  simp

theorem processRows_test_length (cols : List String) (gm : GradeMapT) :
    ∀ (idx : Nat) (rows : List Row),
      (processRows_test cols gm idx rows).1.length = rows.length := by
  intro idx rows
  induction rows generalizing idx with
  | nil => simp [processRows_test]
  | cons r rs ih => simp [processRows_test, ih]

theorem processRows_app_length (cols : List String) (gm : GradeMapA) :
    ∀ (idx : Nat) (rows : List Row),
      (processRows_app cols gm idx rows).1.length = rows.length := by
  intro idx rows
  induction rows generalizing idx with
  | nil => simp [processRows_app]
  | cons r rs ih => simp [processRows_app, ih]

/-- src/test.py emits exactly one output row per input row. -/
theorem process_test_length (tbl : Table) (gm : GradeMapT) :
    (process_student_data_test tbl gm).1.rows.length = tbl.rows.length := by
  unfold process_student_data_test
  split <;>
    (dsimp only
     split <;> simp [List.length_zipWith, List.length_map, processRows_test_length])

/-- src/streamlit_app.py emits exactly one output row per input row. -/
theorem process_app_length (tbl : Table) (gm : GradeMapA) :
    (process_student_data_app tbl gm).1.rows.length = tbl.rows.length := by
  unfold process_student_data_app
  simp [List.length_zipWith, processRows_app_length]

/-! ### Claim theorems -/

/-- C8: the matcher is deterministic: running either file's
`process_student_data` twice on equal student tables and equal reference
indices yields equal output tables and equal log lists.  (The embedded
core is a pure function of its two inputs; the source has no other
input: dictionary iteration order in Python is deterministic and the
row loop is sequential.) -/
theorem c8_deterministic (tblT tblT2 : Table) (gmT gmT2 : GradeMapT)
    (tblA tblA2 : Table) (gmA gmA2 : GradeMapA)
    (h1 : tblT = tblT2) (h2 : gmT = gmT2) (h3 : tblA = tblA2) (h4 : gmA = gmA2) :
    process_student_data_test tblT gmT = process_student_data_test tblT2 gmT2 ∧
    process_student_data_app tblA gmA = process_student_data_app tblA2 gmA2 := by
  subst h1; subst h2; subst h3; subst h4
  exact ⟨rfl, rfl⟩

/-- Witness for C8 at a concrete one-row table. -/
theorem c8_witness :
    process_student_data_test
        ⟨[disciplineCol 1, gradeCol 1], [[(disciplineCol 1, some "М"), (gradeCol 1, some "Хорошо")]]⟩
        [("М", [("Хорошо", "t")])] =
      process_student_data_test
        ⟨[disciplineCol 1, gradeCol 1], [[(disciplineCol 1, some "М"), (gradeCol 1, some "Хорошо")]]⟩
        [("М", [("Хорошо", "t")])] ∧
    process_student_data_app
        ⟨[disciplineCol 1, gradeCol 1], [[(disciplineCol 1, some "М"), (gradeCol 1, some "Хорошо")]]⟩
        [(some "М", [("4", some "t")])] =
      process_student_data_app
        ⟨[disciplineCol 1, gradeCol 1], [[(disciplineCol 1, some "М"), (gradeCol 1, some "Хорошо")]]⟩
        [(some "М", [("4", some "t")])] :=
  c8_deterministic _ _ _ _ _ _ _ _ rfl rfl rfl rfl

/-- C3: a student record all of whose slots reference (discipline, grade)
keys absent from the reference index — the discipline missing, or the
discipline present with no description stored for the slot's grade —
yields the empty placeholder result, and the processing is total (the
embedded loop bodies are total functions: every per-slot error path of
the source is caught at lines 128/143 and becomes a log entry); moreover
every input record receives exactly one output row, in both files.  For
src/test.py the absence hypothesis is `lookup2 … = none` on the slot's
(stripped discipline, cleaned grade); for src/streamlit_app.py it is
absence under the slot's mapped grade key whenever the grade label is
recognised (an unrecognised label references no key and its slot is
skipped unconditionally). -/
theorem c3_no_abort_and_placeholder :
    (∀ (tbl : Table) (gm : GradeMapT),
      (process_student_data_test tbl gm).1.rows.length = tbl.rows.length)
    ∧ (∀ (tbl : Table) (gm : GradeMapA),
      (process_student_data_app tbl gm).1.rows.length = tbl.rows.length)
    ∧ (∀ (cols : List String) (row : Row) (gm : GradeMapT) (idx : Nat),
      (∀ n ∈ ([1, 2, 3] : List Nat),
        lookup2 gm (slotDiscipline row n) (slotGrade row n) = none) →
      (processRow_test cols gm idx row).1 = "")
    ∧ (∀ (cols : List String) (row : Row) (gm : GradeMapA) (idx : Nat),
      (∀ n ∈ ([1, 2, 3] : List Nat), ∀ gk,
        lookupA grade_column_mapping (slotGrade row n) = some gk →
        lookup2 gm (some (slotDisciplineApp row n)) gk = none) →
      (processRow_app cols gm idx row).1 = "") :=
  ⟨process_test_length, process_app_length,
   processRow_test_empty_of_no_match, processRow_app_empty_of_no_match⟩

/-- Witness for C3, exercising both absence shapes: the discipline
`История` is present in each index but stores no description under the
slot's grade (Отлично maps to key "5"), and slots 2 and 3 are absent
columns; both files produce the empty result, and the one-row tables
keep one output row. -/
theorem c3_witness :
    (process_student_data_test
        ⟨[disciplineCol 1, gradeCol 1], [[(disciplineCol 1, some "История"), (gradeCol 1, some "Отлично")]]⟩
        [("История", [("Хорошо", "t")])]).1.rows.length = 1 ∧
    (process_student_data_app
        ⟨[disciplineCol 1, gradeCol 1], [[(disciplineCol 1, some "История"), (gradeCol 1, some "Отлично")]]⟩
        [(some "История", [("4", some "t")])]).1.rows.length = 1 ∧
    (processRow_test [disciplineCol 1, gradeCol 1] [("История", [("Хорошо", "t")])] 0
        [(disciplineCol 1, some "История"), (gradeCol 1, some "Отлично")]).1 = "" ∧
    (processRow_app [disciplineCol 1, gradeCol 1] [(some "История", [("4", some "t")])] 0
        [(disciplineCol 1, some "История"), (gradeCol 1, some "Отлично")]).1 = "" := by
  refine ⟨?_, ?_, ?_, ?_⟩
  · exact c3_no_abort_and_placeholder.1
      ⟨[disciplineCol 1, gradeCol 1], [[(disciplineCol 1, some "История"), (gradeCol 1, some "Отлично")]]⟩
      [("История", [("Хорошо", "t")])]
  · exact c3_no_abort_and_placeholder.2.1
      ⟨[disciplineCol 1, gradeCol 1], [[(disciplineCol 1, some "История"), (gradeCol 1, some "Отлично")]]⟩
      [(some "История", [("4", some "t")])]
  · exact c3_no_abort_and_placeholder.2.2.1 [disciplineCol 1, gradeCol 1]
      [(disciplineCol 1, some "История"), (gradeCol 1, some "Отлично")]
      [("История", [("Хорошо", "t")])] 0
      (by intro n hn; fin_cases hn <;> decide)
  · exact c3_no_abort_and_placeholder.2.2.2 [disciplineCol 1, gradeCol 1]
      [(disciplineCol 1, some "История"), (gradeCol 1, some "Отлично")]
      [(some "История", [("4", some "t")])] 0
      (by
        intro n hn gk hk
        fin_cases hn
        · rw [(by decide : lookupA grade_column_mapping (slotGrade
              [(disciplineCol 1, some "История"), (gradeCol 1, some "Отлично")] 1)
              = some "5")] at hk
          cases hk
          decide
        · rw [(by decide : lookupA grade_column_mapping (slotGrade
              [(disciplineCol 1, some "История"), (gradeCol 1, some "Отлично")] 2)
              = none)] at hk
          cases hk
        · rw [(by decide : lookupA grade_column_mapping (slotGrade
              [(disciplineCol 1, some "История"), (gradeCol 1, some "Отлично")] 3)
              = none)] at hk
          cases hk)

/-- C10: in src/test.py, a slot whose discipline is a key of the index
but whose validated grade has no stored description appends nothing to
the result list; the per-slot handler of line 128 catches the condition
(the `NameError` raised by the broken log f-string of line 117), logs it,
and processing continues with the remaining slots, so the record still
gets its (empty) result; and the table level still emits one output row
per input row. -/
theorem c10_no_description_caught :
    (∀ (d g : String) (gm : GradeMapT) (inner : List (String × String)) (idx : Nat),
      pyStrip d = d → d ≠ "" → pyStrip g = g → g ∈ valid_grades →
      lookupA gm d = some inner → lookupA inner g = none →
      processRow_test [disciplineCol 1, gradeCol 1] gm idx
          [(disciplineCol 1, some d), (gradeCol 1, some g)] =
        ("", [.studentHeader ("Студент " ++ toString (idx + 1)),
              .slotNameError 1, .columnsMissing 2, .columnsMissing 3, .finalEmpty]))
    ∧ (∀ (tbl : Table) (gm : GradeMapT),
      (process_student_data_test tbl gm).1.rows.length = tbl.rows.length) := by
  constructor
  · intro d g gm inner idx hd hdne hg hgv hl ht
    have hne : ¬ (disciplineCol 1 = gradeCol 1) := by decide
    have hrowD : slotDiscipline
        [(disciplineCol 1, some d), (gradeCol 1, some g)] 1 = d := by
      simp [slotDiscipline, getCell, lookupA, pyStr, hd]
    have hrowG : slotGradeCell
        [(disciplineCol 1, some d), (gradeCol 1, some g)] 1 = some g := by
      simp [slotGradeCell, getCell, lookupA, hne]
    have hrowCG : slotGrade
        [(disciplineCol 1, some d), (gradeCol 1, some g)] 1 = g := by
      simp [slotGrade, hrowG, pyStr, hg]
    have hmail : studentEmail [disciplineCol 1, gradeCol 1]
        [(disciplineCol 1, some d), (gradeCol 1, some g)] idx =
        "Студент " ++ toString (idx + 1) := by
      have : ¬ ("Почта" ∈ [disciplineCol 1, gradeCol 1]) := by decide
      simp [studentEmail, this]
    have H1 : slotDiscipline [(disciplineCol 1, some d), (gradeCol 1, some g)] 1 ≠ "" := by
      rw [hrowD]; exact hdne
    have H2 : (slotGradeCell [(disciplineCol 1, some d), (gradeCol 1, some g)] 1).isNone
        = false := by rw [hrowG]; rfl
    have H3 : slotGrade [(disciplineCol 1, some d), (gradeCol 1, some g)] 1
        ∈ valid_grades := by rw [hrowCG]; exact hgv
    have H5 : lookupA gm (slotDiscipline
        [(disciplineCol 1, some d), (gradeCol 1, some g)] 1) = some inner := by
      rw [hrowD]; exact hl
    have H6 : lookupA inner (slotGrade
        [(disciplineCol 1, some d), (gradeCol 1, some g)] 1) = none := by
      rw [hrowCG]; exact ht
    unfold processRow_test processSlots_test
    rw [slotT_nameError _ _ _ 1 _ inner (by decide) (by decide) H1 H2 H3 (by simp) H5 H6,
        slotT_missingCols _ _ _ 2 _ (Or.inl (by decide)),
        slotT_missingCols _ _ _ 3 _ (Or.inl (by decide))]
    simp [hmail]
  · exact process_test_length

/-- Witness for C10 at a concrete discipline whose inner dictionary
lacks the grade. -/
theorem c10_witness :
    processRow_test [disciplineCol 1, gradeCol 1] [("Ф", [("Хорошо", "t")])] 0
        [(disciplineCol 1, some "Ф"), (gradeCol 1, some "Отлично")] =
      ("", [.studentHeader "Студент 1", .slotNameError 1,
            .columnsMissing 2, .columnsMissing 3, .finalEmpty]) ∧
    (process_student_data_test ⟨[], [[], []]⟩ []).1.rows.length = 2 := by
  constructor
  · exact c10_no_description_caught.1 "Ф" "Отлично" [("Ф", [("Хорошо", "t")])]
      [("Хорошо", "t")] 0 (by decide) (by decide) (by decide) (by decide)
      (by decide) (by decide)
  · exact c10_no_description_caught.2 ⟨[], [[], []]⟩ []

/-- C9: in src/test.py a (discipline, grade) pair is recorded in the
per-student processed set only together with an appended result entry
(first conjunct), so an unmatched pair occurring in two slots is looked
up twice: both slots log the discipline as not found, neither as a
duplicate, and nothing is appended (second conjunct: the full log of the
record). -/
theorem c9_unmatched_not_recorded :
    (∀ (cols : List String) (row : Row) (gm : GradeMapT) (n : Nat) (st : SlotState),
      (processSlot_test cols row gm n st).pairs ≠ st.pairs →
      ∃ txt, (processSlot_test cols row gm n st).results = st.results ++ [txt] ∧
        (processSlot_test cols row gm n st).pairs =
          st.pairs ++ [(slotDiscipline row n, slotGrade row n)])
    ∧ (∀ (d g : String) (gm : GradeMapT) (idx : Nat),
      pyStrip d = d → d ≠ "" → pyStrip g = g → g ∈ valid_grades →
      lookupA gm d = none →
      processRow_test [disciplineCol 1, gradeCol 1, disciplineCol 2, gradeCol 2] gm idx
          [(disciplineCol 1, some d), (gradeCol 1, some g),
           (disciplineCol 2, some d), (gradeCol 2, some g)] =
        ("", [.studentHeader ("Студент " ++ toString (idx + 1)),
              .disciplineNotFound d, .disciplineNotFound d,
              .columnsMissing 3, .finalEmpty])) := by
  constructor
  · intro cols row gm n st hne
    by_cases h1 : disciplineCol n ∉ cols ∨ gradeCol n ∉ cols
    · rw [slotT_missingCols cols row gm n st h1] at hne; simp at hne
    · obtain ⟨hc1, hc2⟩ := not_or.mp h1
      rw [not_not] at hc1 hc2
      by_cases h2 : slotDiscipline row n = "" ∨ (slotGradeCell row n).isNone
      · rw [slotT_emptySkip cols row gm n st hc1 hc2 h2] at hne; simp at hne
      · have hd : slotDiscipline row n ≠ "" := fun h => h2 (Or.inl h)
        have hgb : (slotGradeCell row n).isNone = false := by
          by_contra hcon
          exact h2 (Or.inr (by simpa using hcon))
        by_cases h3 : slotGrade row n ∉ valid_grades
        · rw [slotT_unknownGrade cols row gm n st hc1 hc2 hd hgb h3] at hne
          simp at hne
        · rw [not_not] at h3
          by_cases h4 : (slotDiscipline row n, slotGrade row n) ∈ st.pairs
          · rw [slotT_duplicate cols row gm n st hc1 hc2 hd hgb h3 h4] at hne
            simp at hne
          · cases hl : lookupA gm (slotDiscipline row n) with
            | none =>
              rw [slotT_notFound cols row gm n st hc1 hc2 hd hgb h3 h4 hl] at hne
              simp at hne
            | some inner =>
              cases ht : lookupA inner (slotGrade row n) with
              | none =>
                rw [slotT_nameError cols row gm n st inner hc1 hc2 hd hgb h3 h4 hl ht]
                  at hne
                simp at hne
              | some txt =>
                rw [slotT_added cols row gm n st inner txt hc1 hc2 hd hgb h3 h4 hl ht]
                exact ⟨"- " ++ slotDiscipline row n ++ " (" ++ slotGrade row n
                  ++ "): " ++ txt, by simp, by simp⟩
  · intro d g gm idx hd hdne hg hgv hl
    have hne1 : ¬ (disciplineCol 1 = gradeCol 1) := by decide
    have hne2 : ¬ (disciplineCol 2 = gradeCol 2) := by decide
    have hrowD1 : slotDiscipline
        [(disciplineCol 1, some d), (gradeCol 1, some g),
         (disciplineCol 2, some d), (gradeCol 2, some g)] 1 = d := by
      simp [slotDiscipline, getCell, lookupA, pyStr, hd]
    have hrowD2 : slotDiscipline
        [(disciplineCol 1, some d), (gradeCol 1, some g),
         (disciplineCol 2, some d), (gradeCol 2, some g)] 2 = d := by
      have hx1 : ¬ (disciplineCol 1 = disciplineCol 2) := by decide
      have hx2 : ¬ (gradeCol 1 = disciplineCol 2) := by decide
      simp [slotDiscipline, getCell, lookupA, pyStr, hx1, hx2, hd]
    have hrowG1 : slotGradeCell
        [(disciplineCol 1, some d), (gradeCol 1, some g),
         (disciplineCol 2, some d), (gradeCol 2, some g)] 1 = some g := by
      simp [slotGradeCell, getCell, lookupA, hne1]
    have hrowG2 : slotGradeCell
        [(disciplineCol 1, some d), (gradeCol 1, some g),
         (disciplineCol 2, some d), (gradeCol 2, some g)] 2 = some g := by
      have hx1 : ¬ (disciplineCol 1 = gradeCol 2) := by decide
      have hx2 : ¬ (gradeCol 1 = gradeCol 2) := by decide
      have hx3 : ¬ (disciplineCol 2 = gradeCol 2) := by decide
      simp [slotGradeCell, getCell, lookupA, hx1, hx2, hx3]
    have hrowCG1 : slotGrade
        [(disciplineCol 1, some d), (gradeCol 1, some g),
         (disciplineCol 2, some d), (gradeCol 2, some g)] 1 = g := by
      simp [slotGrade, hrowG1, pyStr, hg]
    have hrowCG2 : slotGrade
        [(disciplineCol 1, some d), (gradeCol 1, some g),
         (disciplineCol 2, some d), (gradeCol 2, some g)] 2 = g := by
      simp [slotGrade, hrowG2, pyStr, hg]
    have hmail : studentEmail
        [disciplineCol 1, gradeCol 1, disciplineCol 2, gradeCol 2]
        [(disciplineCol 1, some d), (gradeCol 1, some g),
         (disciplineCol 2, some d), (gradeCol 2, some g)] idx =
        "Студент " ++ toString (idx + 1) := by
      have : ¬ ("Почта" ∈ [disciplineCol 1, gradeCol 1, disciplineCol 2, gradeCol 2]) := by
        decide
      simp [studentEmail, this]
    unfold processRow_test processSlots_test
    rw [slotT_notFound _ _ _ 1 _ (by decide) (by decide)
          (by rw [hrowD1]; exact hdne) (by rw [hrowG1]; rfl)
          (by rw [hrowCG1]; exact hgv) (by simp) (by rw [hrowD1]; exact hl),
        slotT_notFound _ _ _ 2 _ (by decide) (by decide)
          (by rw [hrowD2]; exact hdne) (by rw [hrowG2]; rfl)
          (by rw [hrowCG2]; exact hgv) (by simp) (by rw [hrowD2]; exact hl),
        slotT_missingCols _ _ _ 3 _ (Or.inl (by decide))]
    simp [hmail, hrowD1, hrowD2]

/-- Witness for C9: a concrete unmatched pair duplicated over two slots,
and a concrete slot application that extends the processed set. -/
theorem c9_witness :
    (∃ txt,
      (processSlot_test [disciplineCol 1, gradeCol 1]
          [(disciplineCol 1, some "Ф"), (gradeCol 1, some "Хорошо")]
          [("Ф", [("Хорошо", "t")])] 1 ⟨[], [], []⟩).results = [] ++ [txt] ∧
      (processSlot_test [disciplineCol 1, gradeCol 1]
          [(disciplineCol 1, some "Ф"), (gradeCol 1, some "Хорошо")]
          [("Ф", [("Хорошо", "t")])] 1 ⟨[], [], []⟩).pairs =
        [] ++ [(slotDiscipline [(disciplineCol 1, some "Ф"), (gradeCol 1, some "Хорошо")] 1,
                slotGrade [(disciplineCol 1, some "Ф"), (gradeCol 1, some "Хорошо")] 1)]) ∧
    processRow_test [disciplineCol 1, gradeCol 1, disciplineCol 2, gradeCol 2] [] 0
        [(disciplineCol 1, some "История"), (gradeCol 1, some "Отлично"),
         (disciplineCol 2, some "История"), (gradeCol 2, some "Отлично")] =
      ("", [.studentHeader "Студент 1",
            .disciplineNotFound "История", .disciplineNotFound "История",
            .columnsMissing 3, .finalEmpty]) := by
  constructor
  · exact c9_unmatched_not_recorded.1 [disciplineCol 1, gradeCol 1]
      [(disciplineCol 1, some "Ф"), (gradeCol 1, some "Хорошо")]
      [("Ф", [("Хорошо", "t")])] 1 ⟨[], [], []⟩ (by decide)
  · exact c9_unmatched_not_recorded.2 "История" "Отлично" [] 0
      (by decide) (by decide) (by decide) (by decide) (by decide)

/-- Counterexample to C2: src/streamlit_app.py has no duplicate tracking,
so a record carrying the same matched (discipline, grade) pair in slots 1
and 2 gets the matching description twice in its final result, not once. -/
theorem c2_counterexample_app_duplicate_twice :
    (processRow_app [disciplineCol 1, gradeCol 1, disciplineCol 2, gradeCol 2]
        [(some "Математика", [("4", some "d4")])] 0
        [(disciplineCol 1, some "Математика"), (gradeCol 1, some "Хорошо"),
         (disciplineCol 2, some "Математика"), (gradeCol 2, some "Хорошо")]).1
      = "Математика:\nd4\n\nМатематика:\nd4" ∧
    "Математика:\nd4\n\nМатематика:\nd4" ≠ "Математика:\nd4" := by
  exact ⟨rfl, by decide⟩

/-- C2 amended: only src/test.py deduplicates.  First conjunct: in
src/test.py a record with the same matched (discipline, grade) pair in
slots 1 and 2 emits exactly one result entry, the repeat being logged as
a skipped duplicate.  Second conjunct: in src/streamlit_app.py the same
record emits the entry once per slot, hence twice. -/
theorem c2_dedup_amended :
    (∀ (d g txt : String) (gm : GradeMapT) (inner : List (String × String)) (idx : Nat),
      pyStrip d = d → d ≠ "" → pyStrip g = g → g ∈ valid_grades →
      lookupA gm d = some inner → lookupA inner g = some txt →
      processRow_test [disciplineCol 1, gradeCol 1, disciplineCol 2, gradeCol 2] gm idx
          [(disciplineCol 1, some d), (gradeCol 1, some g),
           (disciplineCol 2, some d), (gradeCol 2, some g)] =
        ("- " ++ d ++ " (" ++ g ++ "): " ++ txt,
         [.studentHeader ("Студент " ++ toString (idx + 1)),
          .added d g, .duplicateSkip d g, .columnsMissing 3,
          .finalResult ("- " ++ d ++ " (" ++ g ++ "): " ++ txt)]))
    ∧ (∀ (d g gk : String) (txt : Cell) (gm : GradeMapA) (idx : Nat),
      pyStrip d = d → d ≠ "" → pyStrip g = g →
      lookupA grade_column_mapping g = some gk →
      lookup2 gm (some d) gk = some txt →
      (processRow_app [disciplineCol 1, gradeCol 1, disciplineCol 2, gradeCol 2] gm idx
          [(disciplineCol 1, some d), (gradeCol 1, some g),
           (disciplineCol 2, some d), (gradeCol 2, some g)]).1 =
        (d ++ ":\n" ++ pyStr txt) ++ "\n\n" ++ (d ++ ":\n" ++ pyStr txt)) := by
  constructor
  · intro d g txt gm inner idx hd hdne hg hgv hl ht
    have hne1 : ¬ (disciplineCol 1 = gradeCol 1) := by decide
    have hrowD1 : slotDiscipline
        [(disciplineCol 1, some d), (gradeCol 1, some g),
         (disciplineCol 2, some d), (gradeCol 2, some g)] 1 = d := by
      simp [slotDiscipline, getCell, lookupA, pyStr, hd]
    have hrowD2 : slotDiscipline
        [(disciplineCol 1, some d), (gradeCol 1, some g),
         (disciplineCol 2, some d), (gradeCol 2, some g)] 2 = d := by
      have hx1 : ¬ (disciplineCol 1 = disciplineCol 2) := by decide
      have hx2 : ¬ (gradeCol 1 = disciplineCol 2) := by decide
      simp [slotDiscipline, getCell, lookupA, pyStr, hx1, hx2, hd]
    have hrowG1 : slotGradeCell
        [(disciplineCol 1, some d), (gradeCol 1, some g),
         (disciplineCol 2, some d), (gradeCol 2, some g)] 1 = some g := by
      simp [slotGradeCell, getCell, lookupA, hne1]
    have hrowG2 : slotGradeCell
        [(disciplineCol 1, some d), (gradeCol 1, some g),
         (disciplineCol 2, some d), (gradeCol 2, some g)] 2 = some g := by
      have hx1 : ¬ (disciplineCol 1 = gradeCol 2) := by decide
      have hx2 : ¬ (gradeCol 1 = gradeCol 2) := by decide
      have hx3 : ¬ (disciplineCol 2 = gradeCol 2) := by decide
      simp [slotGradeCell, getCell, lookupA, hx1, hx2, hx3]
    have hrowCG1 : slotGrade
        [(disciplineCol 1, some d), (gradeCol 1, some g),
         (disciplineCol 2, some d), (gradeCol 2, some g)] 1 = g := by
      simp [slotGrade, hrowG1, pyStr, hg]
    have hrowCG2 : slotGrade
        [(disciplineCol 1, some d), (gradeCol 1, some g),
         (disciplineCol 2, some d), (gradeCol 2, some g)] 2 = g := by
      simp [slotGrade, hrowG2, pyStr, hg]
    have hmail : studentEmail
        [disciplineCol 1, gradeCol 1, disciplineCol 2, gradeCol 2]
        [(disciplineCol 1, some d), (gradeCol 1, some g),
         (disciplineCol 2, some d), (gradeCol 2, some g)] idx =
        "Студент " ++ toString (idx + 1) := by
      have : ¬ ("Почта" ∈ [disciplineCol 1, gradeCol 1, disciplineCol 2, gradeCol 2]) := by
        decide
      simp [studentEmail, this]
    have hner : ("- " ++ d ++ " (" ++ g ++ "): " ++ txt) ≠ "" := by
      intro hcon
      have h2 := congrArg String.data hcon
      simp [String.data_append] at h2
    unfold processRow_test processSlots_test
    rw [slotT_added _ _ _ 1 _ inner txt (by decide) (by decide)
          (by rw [hrowD1]; exact hdne) (by rw [hrowG1]; rfl)
          (by rw [hrowCG1]; exact hgv) (by simp)
          (by rw [hrowD1]; exact hl) (by rw [hrowCG1]; exact ht),
        slotT_duplicate _ _ _ 2 _ (by decide) (by decide)
          (by rw [hrowD2]; exact hdne) (by rw [hrowG2]; rfl)
          (by rw [hrowCG2]; exact hgv)
          (by rw [hrowD1, hrowD2, hrowCG1, hrowCG2]; simp),
        slotT_missingCols _ _ _ 3 _ (Or.inl (by decide))]
    simp [hmail, hrowD1, hrowD2, hrowCG1, hrowCG2, joinSep, hner]
  · intro d g gk txt gm idx hd hdne hg hk ht
    have hf : containsA gm (some d) = true := by
      unfold lookup2 at ht
      cases hx : lookupA gm (some d) with
      | none => rw [hx] at ht; exact absurd ht (by simp)
      | some inner => simp [containsA, hx]
    have hne1 : ¬ (disciplineCol 1 = gradeCol 1) := by decide
    have hrowD1 : slotDisciplineApp
        [(disciplineCol 1, some d), (gradeCol 1, some g),
         (disciplineCol 2, some d), (gradeCol 2, some g)] 1 = d := by
      simp [slotDisciplineApp, getCell, lookupA, pyStr, hd]
    have hrowD2 : slotDisciplineApp
        [(disciplineCol 1, some d), (gradeCol 1, some g),
         (disciplineCol 2, some d), (gradeCol 2, some g)] 2 = d := by
      have hx1 : ¬ (disciplineCol 1 = disciplineCol 2) := by decide
      have hx2 : ¬ (gradeCol 1 = disciplineCol 2) := by decide
      simp [slotDisciplineApp, getCell, lookupA, pyStr, hx1, hx2, hd]
    have hrowG1 : slotGradeCell
        [(disciplineCol 1, some d), (gradeCol 1, some g),
         (disciplineCol 2, some d), (gradeCol 2, some g)] 1 = some g := by
      simp [slotGradeCell, getCell, lookupA, hne1]
    have hrowG2 : slotGradeCell
        [(disciplineCol 1, some d), (gradeCol 1, some g),
         (disciplineCol 2, some d), (gradeCol 2, some g)] 2 = some g := by
      have hx1 : ¬ (disciplineCol 1 = gradeCol 2) := by decide
      have hx2 : ¬ (gradeCol 1 = gradeCol 2) := by decide
      have hx3 : ¬ (disciplineCol 2 = gradeCol 2) := by decide
      simp [slotGradeCell, getCell, lookupA, hx1, hx2, hx3]
    have hrowCG1 : slotGrade
        [(disciplineCol 1, some d), (gradeCol 1, some g),
         (disciplineCol 2, some d), (gradeCol 2, some g)] 1 = g := by
      simp [slotGrade, hrowG1, pyStr, hg]
    have hrowCG2 : slotGrade
        [(disciplineCol 1, some d), (gradeCol 1, some g),
         (disciplineCol 2, some d), (gradeCol 2, some g)] 2 = g := by
      simp [slotGrade, hrowG2, pyStr, hg]
    have hfmt1 : slotFormattedApp
        [disciplineCol 1, gradeCol 1, disciplineCol 2, gradeCol 2]
        [(disciplineCol 1, some d), (gradeCol 1, some g),
         (disciplineCol 2, some d), (gradeCol 2, some g)] 1 d = d := by
      have : ¬ (shortNameCol 1 ∈
          [disciplineCol 1, gradeCol 1, disciplineCol 2, gradeCol 2]) := by decide
      simp [slotFormattedApp, this]
    have hfmt2 : slotFormattedApp
        [disciplineCol 1, gradeCol 1, disciplineCol 2, gradeCol 2]
        [(disciplineCol 1, some d), (gradeCol 1, some g),
         (disciplineCol 2, some d), (gradeCol 2, some g)] 2 d = d := by
      have : ¬ (shortNameCol 2 ∈
          [disciplineCol 1, gradeCol 1, disciplineCol 2, gradeCol 2]) := by decide
      simp [slotFormattedApp, this]
    unfold processRow_app processSlots_app
    dsimp only
    rw [slotA_added _ _ _ 1 _ gk txt (by decide) (by decide)
          (by rw [hrowG1]; rfl) (by rw [hrowCG1]; exact hk)
          (by rw [hrowD1]; exact hf) (by rw [hrowD1]; exact hdne)
          (by rw [hrowD1]; exact ht),
        slotA_added _ _ _ 2 _ gk txt (by decide) (by decide)
          (by rw [hrowG2]; rfl) (by rw [hrowCG2]; exact hk)
          (by rw [hrowD2]; exact hf) (by rw [hrowD2]; exact hdne)
          (by rw [hrowD2]; exact ht),
        slotA_missingCols _ _ _ 3 _ (by decide)]
    simp [hrowD1, hrowD2, hfmt1, hfmt2, joinSep]

/-- Witness for C2's amended statement at a concrete matched pair. -/
theorem c2_witness :
    processRow_test [disciplineCol 1, gradeCol 1, disciplineCol 2, gradeCol 2]
        [("Ф", [("Хорошо", "t")])] 0
        [(disciplineCol 1, some "Ф"), (gradeCol 1, some "Хорошо"),
         (disciplineCol 2, some "Ф"), (gradeCol 2, some "Хорошо")] =
      ("- Ф (Хорошо): t",
       [.studentHeader "Студент 1", .added "Ф" "Хорошо",
        .duplicateSkip "Ф" "Хорошо", .columnsMissing 3,
        .finalResult "- Ф (Хорошо): t"]) ∧
    (processRow_app [disciplineCol 1, gradeCol 1, disciplineCol 2, gradeCol 2]
        [(some "Ф", [("4", some "t")])] 0
        [(disciplineCol 1, some "Ф"), (gradeCol 1, some "Хорошо"),
         (disciplineCol 2, some "Ф"), (gradeCol 2, some "Хорошо")]).1 =
      ("Ф:\nt" ++ "\n\n" ++ "Ф:\nt") := by
  constructor
  · exact c2_dedup_amended.1 "Ф" "Хорошо" "t" [("Ф", [("Хорошо", "t")])]
      [("Хорошо", "t")] 0 (by decide) (by decide) (by decide) (by decide)
      (by decide) (by decide)
  · exact c2_dedup_amended.2 "Ф" "Хорошо" "4" (some "t") [(some "Ф", [("4", some "t")])] 0
      (by decide) (by decide) (by decide) (by decide) (by decide)

/-- Counterexample to C5: in src/test.py the same discipline with
Satisfactory in slot 1 and Excellent in slot 2 yields both descriptions
in the final result (the dedup key is the full (discipline, grade) pair,
so different grades are not collapsed); the result is not only the
Excellent-level description. -/
theorem c5_counterexample_both_descriptions :
    (processRow_test [disciplineCol 1, gradeCol 1, disciplineCol 2, gradeCol 2]
        [("Математика", [("Удовлетворительно", "s1"), ("Отлично", "s2")])] 0
        [(disciplineCol 1, some "Математика"), (gradeCol 1, some "Удовлетворительно"),
         (disciplineCol 2, some "Математика"), (gradeCol 2, some "Отлично")]).1
      = "- Математика (Удовлетворительно): s1\n- Математика (Отлично): s2" ∧
    "- Математика (Удовлетворительно): s1\n- Математика (Отлично): s2"
      ≠ "- Математика (Отлично): s2" :=
  ⟨rfl, by decide⟩

/-- C5 amended: neither file implements best-grade-wins.  In src/test.py
the same discipline with grade Satisfactory in slot 1 and Excellent in
slot 2 produces both entries, in slot order, joined by a single
newline. -/
theorem c5_no_best_grade_amended :
    ∀ (d s1 s2 : String) (gm : GradeMapT) (inner : List (String × String)) (idx : Nat),
      pyStrip d = d → d ≠ "" →
      lookupA gm d = some inner →
      lookupA inner "Удовлетворительно" = some s1 →
      lookupA inner "Отлично" = some s2 →
      (processRow_test [disciplineCol 1, gradeCol 1, disciplineCol 2, gradeCol 2] gm idx
          [(disciplineCol 1, some d), (gradeCol 1, some "Удовлетворительно"),
           (disciplineCol 2, some d), (gradeCol 2, some "Отлично")]).1 =
        ("- " ++ d ++ " (" ++ "Удовлетворительно" ++ "): " ++ s1) ++ "\n"
          ++ ("- " ++ d ++ " (" ++ "Отлично" ++ "): " ++ s2) := by
  intro d s1 s2 gm inner idx hd hdne hl hs1 hs2
  have hps : pyStrip "Удовлетворительно" = "Удовлетворительно" := by decide
  have hpe : pyStrip "Отлично" = "Отлично" := by decide
  have hne1 : ¬ (disciplineCol 1 = gradeCol 1) := by decide
  have hrowD1 : slotDiscipline
      [(disciplineCol 1, some d), (gradeCol 1, some "Удовлетворительно"),
       (disciplineCol 2, some d), (gradeCol 2, some "Отлично")] 1 = d := by
    simp [slotDiscipline, getCell, lookupA, pyStr, hd]
  have hrowD2 : slotDiscipline
      [(disciplineCol 1, some d), (gradeCol 1, some "Удовлетворительно"),
       (disciplineCol 2, some d), (gradeCol 2, some "Отлично")] 2 = d := by
    have hx1 : ¬ (disciplineCol 1 = disciplineCol 2) := by decide
    have hx2 : ¬ (gradeCol 1 = disciplineCol 2) := by decide
    simp [slotDiscipline, getCell, lookupA, pyStr, hx1, hx2, hd]
  have hrowG1 : slotGradeCell
      [(disciplineCol 1, some d), (gradeCol 1, some "Удовлетворительно"),
       (disciplineCol 2, some d), (gradeCol 2, some "Отлично")] 1
      = some "Удовлетворительно" := by
    simp [slotGradeCell, getCell, lookupA, hne1]
  have hrowG2 : slotGradeCell
      [(disciplineCol 1, some d), (gradeCol 1, some "Удовлетворительно"),
       (disciplineCol 2, some d), (gradeCol 2, some "Отлично")] 2
      = some "Отлично" := by
    have hx1 : ¬ (disciplineCol 1 = gradeCol 2) := by decide
    have hx2 : ¬ (gradeCol 1 = gradeCol 2) := by decide
    have hx3 : ¬ (disciplineCol 2 = gradeCol 2) := by decide
    simp [slotGradeCell, getCell, lookupA, hx1, hx2, hx3]
  have hrowCG1 : slotGrade
      [(disciplineCol 1, some d), (gradeCol 1, some "Удовлетворительно"),
       (disciplineCol 2, some d), (gradeCol 2, some "Отлично")] 1
      = "Удовлетворительно" := by
    simp [slotGrade, hrowG1, pyStr, hps]
  have hrowCG2 : slotGrade
      [(disciplineCol 1, some d), (gradeCol 1, some "Удовлетворительно"),
       (disciplineCol 2, some d), (gradeCol 2, some "Отлично")] 2
      = "Отлично" := by
    simp [slotGrade, hrowG2, pyStr, hpe]
  unfold processRow_test processSlots_test
  rw [slotT_added _ _ _ 1 _ inner s1 (by decide) (by decide)
        (by rw [hrowD1]; exact hdne) (by rw [hrowG1]; rfl)
        (by rw [hrowCG1]; decide) (by simp)
        (by rw [hrowD1]; exact hl) (by rw [hrowCG1]; exact hs1),
      slotT_added _ _ _ 2 _ inner s2 (by decide) (by decide)
        (by rw [hrowD2]; exact hdne) (by rw [hrowG2]; rfl)
        (by rw [hrowCG2]; decide)
        (by rw [hrowD2, hrowCG2, hrowD1, hrowCG1]; simp)
        (by rw [hrowD2]; exact hl) (by rw [hrowCG2]; exact hs2),
      slotT_missingCols _ _ _ 3 _ (Or.inl (by decide))]
  simp [hrowD1, hrowD2, hrowCG1, hrowCG2, joinSep]

/-- Witness for C5's amended statement at a concrete discipline. -/
theorem c5_witness :
    (processRow_test [disciplineCol 1, gradeCol 1, disciplineCol 2, gradeCol 2]
        [("Ф", [("Удовлетворительно", "u"), ("Отлично", "o")])] 0
        [(disciplineCol 1, some "Ф"), (gradeCol 1, some "Удовлетворительно"),
         (disciplineCol 2, some "Ф"), (gradeCol 2, some "Отлично")]).1 =
      "- Ф (Удовлетворительно): u\n- Ф (Отлично): o" :=
  (c5_no_best_grade_amended "Ф" "u" "o"
    [("Ф", [("Удовлетворительно", "u"), ("Отлично", "o")])]
    [("Удовлетворительно", "u"), ("Отлично", "o")] 0
    (by decide) (by decide) (by decide) (by decide) (by decide)).trans (by decide)

/-- Counterexample to C6: src/test.py joins entries with a single
newline and formats them as `- <discipline> (<grade>): <description>`,
not as `<name>:\n<description>` joined by a double newline. -/
theorem c6_counterexample_test_format :
    (processRow_test [disciplineCol 1, gradeCol 1, disciplineCol 2, gradeCol 2]
        [("А", [("Хорошо", "x")]), ("Б", [("Хорошо", "y")])] 0
        [(disciplineCol 1, some "А"), (gradeCol 1, some "Хорошо"),
         (disciplineCol 2, some "Б"), (gradeCol 2, some "Хорошо")]).1
      = "- А (Хорошо): x\n- Б (Хорошо): y" ∧
    "- А (Хорошо): x\n- Б (Хорошо): y" ≠ "А:\nx\n\nБ:\ny" :=
  ⟨rfl, by decide⟩

/-- C6 amended: the claimed format holds of src/streamlit_app.py only.
First conjunct: in src/streamlit_app.py two matched slots produce
`<display-or-raw discipline>:\n<description>` entries joined by a double
newline (here with no short-name columns, so the raw discipline is
used).  Second conjunct: when no slot matches, the final text is the
empty-string sentinel.  Third conjunct: src/test.py instead formats
`- <discipline> (<grade>): <description>` and joins with a single
newline. -/
theorem c6_formatting_amended :
    (∀ (d1 d2 g gk : String) (t1 t2 : Cell) (gm : GradeMapA) (idx : Nat),
      pyStrip d1 = d1 → d1 ≠ "" → pyStrip d2 = d2 → d2 ≠ "" → pyStrip g = g →
      lookupA grade_column_mapping g = some gk →
      lookup2 gm (some d1) gk = some t1 →
      lookup2 gm (some d2) gk = some t2 →
      (processRow_app [disciplineCol 1, gradeCol 1, disciplineCol 2, gradeCol 2] gm idx
          [(disciplineCol 1, some d1), (gradeCol 1, some g),
           (disciplineCol 2, some d2), (gradeCol 2, some g)]).1 =
        (d1 ++ ":\n" ++ pyStr t1) ++ "\n\n" ++ (d2 ++ ":\n" ++ pyStr t2))
    ∧ (∀ (cols : List String) (row : Row) (gm : GradeMapA) (idx : Nat),
      (∀ n ∈ ([1, 2, 3] : List Nat),
        containsA gm (some (slotDisciplineApp row n)) = false) →
      (processRow_app cols gm idx row).1 = "")
    ∧ (∀ (d1 d2 g t1 t2 : String) (gm : GradeMapT)
        (i1 i2 : List (String × String)) (idx : Nat),
      pyStrip d1 = d1 → d1 ≠ "" → pyStrip d2 = d2 → d2 ≠ "" → d2 ≠ d1 →
      pyStrip g = g → g ∈ valid_grades →
      lookupA gm d1 = some i1 → lookupA i1 g = some t1 →
      lookupA gm d2 = some i2 → lookupA i2 g = some t2 →
      (processRow_test [disciplineCol 1, gradeCol 1, disciplineCol 2, gradeCol 2] gm idx
          [(disciplineCol 1, some d1), (gradeCol 1, some g),
           (disciplineCol 2, some d2), (gradeCol 2, some g)]).1 =
        ("- " ++ d1 ++ " (" ++ g ++ "): " ++ t1) ++ "\n"
          ++ ("- " ++ d2 ++ " (" ++ g ++ "): " ++ t2)) := by
  refine ⟨?_, processRow_app_empty_of_all_notFound, ?_⟩
  · intro d1 d2 g gk t1 t2 gm idx hd1 hd1ne hd2 hd2ne hg hk ht1 ht2
    have hf1 : containsA gm (some d1) = true := by
      unfold lookup2 at ht1
      cases hx : lookupA gm (some d1) with
      | none => rw [hx] at ht1; exact absurd ht1 (by simp)
      | some inner => simp [containsA, hx]
    have hf2 : containsA gm (some d2) = true := by
      unfold lookup2 at ht2
      cases hx : lookupA gm (some d2) with
      | none => rw [hx] at ht2; exact absurd ht2 (by simp)
      | some inner => simp [containsA, hx]
    have hne1 : ¬ (disciplineCol 1 = gradeCol 1) := by decide
    have hrowD1 : slotDisciplineApp
        [(disciplineCol 1, some d1), (gradeCol 1, some g),
         (disciplineCol 2, some d2), (gradeCol 2, some g)] 1 = d1 := by
      simp [slotDisciplineApp, getCell, lookupA, pyStr, hd1]
    have hrowD2 : slotDisciplineApp
        [(disciplineCol 1, some d1), (gradeCol 1, some g),
         (disciplineCol 2, some d2), (gradeCol 2, some g)] 2 = d2 := by
      have hx1 : ¬ (disciplineCol 1 = disciplineCol 2) := by decide
      have hx2 : ¬ (gradeCol 1 = disciplineCol 2) := by decide
      simp [slotDisciplineApp, getCell, lookupA, pyStr, hx1, hx2, hd2]
    have hrowG1 : slotGradeCell
        [(disciplineCol 1, some d1), (gradeCol 1, some g),
         (disciplineCol 2, some d2), (gradeCol 2, some g)] 1 = some g := by
      simp [slotGradeCell, getCell, lookupA, hne1]
    have hrowG2 : slotGradeCell
        [(disciplineCol 1, some d1), (gradeCol 1, some g),
         (disciplineCol 2, some d2), (gradeCol 2, some g)] 2 = some g := by
      have hx1 : ¬ (disciplineCol 1 = gradeCol 2) := by decide
      have hx2 : ¬ (gradeCol 1 = gradeCol 2) := by decide
      have hx3 : ¬ (disciplineCol 2 = gradeCol 2) := by decide
      simp [slotGradeCell, getCell, lookupA, hx1, hx2, hx3]
    have hrowCG1 : slotGrade
        [(disciplineCol 1, some d1), (gradeCol 1, some g),
         (disciplineCol 2, some d2), (gradeCol 2, some g)] 1 = g := by
      simp [slotGrade, hrowG1, pyStr, hg]
    have hrowCG2 : slotGrade
        [(disciplineCol 1, some d1), (gradeCol 1, some g),
         (disciplineCol 2, some d2), (gradeCol 2, some g)] 2 = g := by
      simp [slotGrade, hrowG2, pyStr, hg]
    have hfmt1 : slotFormattedApp
        [disciplineCol 1, gradeCol 1, disciplineCol 2, gradeCol 2]
        [(disciplineCol 1, some d1), (gradeCol 1, some g),
         (disciplineCol 2, some d2), (gradeCol 2, some g)] 1 d1 = d1 := by
      have : ¬ (shortNameCol 1 ∈
          [disciplineCol 1, gradeCol 1, disciplineCol 2, gradeCol 2]) := by decide
      simp [slotFormattedApp, this]
    have hfmt2 : slotFormattedApp
        [disciplineCol 1, gradeCol 1, disciplineCol 2, gradeCol 2]
        [(disciplineCol 1, some d1), (gradeCol 1, some g),
         (disciplineCol 2, some d2), (gradeCol 2, some g)] 2 d2 = d2 := by
      have : ¬ (shortNameCol 2 ∈
          [disciplineCol 1, gradeCol 1, disciplineCol 2, gradeCol 2]) := by decide
      simp [slotFormattedApp, this]
    unfold processRow_app processSlots_app
    dsimp only
    rw [slotA_added _ _ _ 1 _ gk t1 (by decide) (by decide)
          (by rw [hrowG1]; rfl) (by rw [hrowCG1]; exact hk)
          (by rw [hrowD1]; exact hf1) (by rw [hrowD1]; exact hd1ne)
          (by rw [hrowD1]; exact ht1),
        slotA_added _ _ _ 2 _ gk t2 (by decide) (by decide)
          (by rw [hrowG2]; rfl) (by rw [hrowCG2]; exact hk)
          (by rw [hrowD2]; exact hf2) (by rw [hrowD2]; exact hd2ne)
          (by rw [hrowD2]; exact ht2),
        slotA_missingCols _ _ _ 3 _ (by decide)]
    simp [hrowD1, hrowD2, hfmt1, hfmt2, joinSep]
  · intro d1 d2 g t1 t2 gm i1 i2 idx hd1 hd1ne hd2 hd2ne hdd hg hgv hl1 ht1 hl2 ht2
    have hne1 : ¬ (disciplineCol 1 = gradeCol 1) := by decide
    have hrowD1 : slotDiscipline
        [(disciplineCol 1, some d1), (gradeCol 1, some g),
         (disciplineCol 2, some d2), (gradeCol 2, some g)] 1 = d1 := by
      simp [slotDiscipline, getCell, lookupA, pyStr, hd1]
    have hrowD2 : slotDiscipline
        [(disciplineCol 1, some d1), (gradeCol 1, some g),
         (disciplineCol 2, some d2), (gradeCol 2, some g)] 2 = d2 := by
      have hx1 : ¬ (disciplineCol 1 = disciplineCol 2) := by decide
      have hx2 : ¬ (gradeCol 1 = disciplineCol 2) := by decide
      simp [slotDiscipline, getCell, lookupA, pyStr, hx1, hx2, hd2]
    have hrowG1 : slotGradeCell
        [(disciplineCol 1, some d1), (gradeCol 1, some g),
         (disciplineCol 2, some d2), (gradeCol 2, some g)] 1 = some g := by
      simp [slotGradeCell, getCell, lookupA, hne1]
    have hrowG2 : slotGradeCell
        [(disciplineCol 1, some d1), (gradeCol 1, some g),
         (disciplineCol 2, some d2), (gradeCol 2, some g)] 2 = some g := by
      have hx1 : ¬ (disciplineCol 1 = gradeCol 2) := by decide
      have hx2 : ¬ (gradeCol 1 = gradeCol 2) := by decide
      have hx3 : ¬ (disciplineCol 2 = gradeCol 2) := by decide
      simp [slotGradeCell, getCell, lookupA, hx1, hx2, hx3]
    have hrowCG1 : slotGrade
        [(disciplineCol 1, some d1), (gradeCol 1, some g),
         (disciplineCol 2, some d2), (gradeCol 2, some g)] 1 = g := by
      simp [slotGrade, hrowG1, pyStr, hg]
    have hrowCG2 : slotGrade
        [(disciplineCol 1, some d1), (gradeCol 1, some g),
         (disciplineCol 2, some d2), (gradeCol 2, some g)] 2 = g := by
      simp [slotGrade, hrowG2, pyStr, hg]
    unfold processRow_test processSlots_test
    rw [slotT_added _ _ _ 1 _ i1 t1 (by decide) (by decide)
          (by rw [hrowD1]; exact hd1ne) (by rw [hrowG1]; rfl)
          (by rw [hrowCG1]; exact hgv) (by simp)
          (by rw [hrowD1]; exact hl1) (by rw [hrowCG1]; exact ht1),
        slotT_added _ _ _ 2 _ i2 t2 (by decide) (by decide)
          (by rw [hrowD2]; exact hd2ne) (by rw [hrowG2]; rfl)
          (by rw [hrowCG2]; exact hgv)
          (by rw [hrowD2, hrowCG2, hrowD1, hrowCG1]; simp [hdd])
          (by rw [hrowD2]; exact hl2) (by rw [hrowCG2]; exact ht2),
        slotT_missingCols _ _ _ 3 _ (Or.inl (by decide))]
    simp [hrowD1, hrowD2, hrowCG1, hrowCG2, joinSep]

/-- Witness for C6's amended statement at concrete disciplines. -/
theorem c6_witness :
    (processRow_app [disciplineCol 1, gradeCol 1, disciplineCol 2, gradeCol 2]
        [(some "А", [("4", some "x")]), (some "Б", [("4", some "y")])] 0
        [(disciplineCol 1, some "А"), (gradeCol 1, some "Хорошо"),
         (disciplineCol 2, some "Б"), (gradeCol 2, some "Хорошо")]).1 =
      "А:\nx\n\nБ:\ny" ∧
    (processRow_app [disciplineCol 1, gradeCol 1] [] 0
        [(disciplineCol 1, some "А"), (gradeCol 1, some "Хорошо")]).1 = "" ∧
    (processRow_test [disciplineCol 1, gradeCol 1, disciplineCol 2, gradeCol 2]
        [("А", [("Хорошо", "x")]), ("Б", [("Хорошо", "y")])] 0
        [(disciplineCol 1, some "А"), (gradeCol 1, some "Хорошо"),
         (disciplineCol 2, some "Б"), (gradeCol 2, some "Хорошо")]).1 =
      "- А (Хорошо): x\n- Б (Хорошо): y" := by
  refine ⟨?_, ?_, ?_⟩
  · exact (c6_formatting_amended.1 "А" "Б" "Хорошо" "4" (some "x") (some "y")
      [(some "А", [("4", some "x")]), (some "Б", [("4", some "y")])] 0
      (by decide) (by decide) (by decide) (by decide) (by decide)
      (by decide) (by decide) (by decide)).trans (by decide)
  · exact c6_formatting_amended.2.1 [disciplineCol 1, gradeCol 1]
      [(disciplineCol 1, some "А"), (gradeCol 1, some "Хорошо")] [] 0
      (by intro n hn; simp [containsA, lookupA])
  · exact (c6_formatting_amended.2.2 "А" "Б" "Хорошо" "x" "y"
      [("А", [("Хорошо", "x")]), ("Б", [("Хорошо", "y")])]
      [("Хорошо", "x")] [("Хорошо", "y")] 0
      (by decide) (by decide) (by decide) (by decide) (by decide)
      (by decide) (by decide) (by decide) (by decide) (by decide)
      (by decide)).trans (by decide)

/-- Counterexample to C4: in src/test.py a reference source missing the
discipline column does NOT fail the build; every field of the affected
column reads as the empty string, so all rows are skipped and the build
silently returns an empty index.  (src/streamlit_app.py, by contrast,
raises a `KeyError` naming the column, shown here for the same input.) -/
theorem c4_counterexample_test_missing_column :
    load_reference_data_test
        ⟨false, true, true, [⟨some "Математика", some "Отлично", some "d"⟩]⟩ = [] ∧
    load_reference_data_app
        ⟨false, true, true, [⟨some "Математика", some "Отлично", some "d"⟩]⟩
      = .error "Дисциплина" :=
  ⟨rfl, rfl⟩

/-- C4 amended: only src/streamlit_app.py's builder fails on a missing
required column — with a `KeyError` naming the first missing column in
access order, provided at least one row exists (conjuncts 1-3); when all
three columns are present no row can abort its build (conjunct 4).
src/test.py's builder never fails: a missing column makes the affected
field read as empty and the row is skipped; and any row it skips (empty
field or unrecognised level) contributes nothing to the index (conjunct
5). -/
theorem c4_error_handling_amended :
    (∀ (tbl : RefTable) (r : RefRow) (rs : List RefRow),
      tbl.rows = r :: rs → tbl.hasDiscipline = false →
      load_reference_data_app tbl = .error "Дисциплина")
    ∧ (∀ (tbl : RefTable) (r : RefRow) (rs : List RefRow),
      tbl.rows = r :: rs → tbl.hasDiscipline = true → tbl.hasLevel = false →
      load_reference_data_app tbl = .error "Уровень_оценки")
    ∧ (∀ (tbl : RefTable) (r : RefRow) (rs : List RefRow),
      tbl.rows = r :: rs → tbl.hasDiscipline = true → tbl.hasLevel = true →
      tbl.hasDescription = false →
      load_reference_data_app tbl = .error "Описание_навыков")
    ∧ (∀ (tbl : RefTable),
      tbl.hasDiscipline = true → tbl.hasLevel = true → tbl.hasDescription = true →
      ∃ m, load_reference_data_app tbl = .ok m)
    ∧ (∀ (tbl : RefTable) (m : GradeMapT) (r : RefRow),
      refYield_test tbl r = none →
      ∀ d l, lookup2 (refStep_test tbl m r) d l = lookup2 m d l) := by
  refine ⟨?_, ?_, ?_, ?_, ?_⟩
  · intro tbl r rs hrows hd
    unfold load_reference_data_app
    rw [hrows]
    simp [loadRowsApp, refStep_app, hd]
  · intro tbl r rs hrows hd hl
    unfold load_reference_data_app
    rw [hrows]
    simp [loadRowsApp, refStep_app, hd, hl]
  · intro tbl r rs hrows hd hl hc
    unfold load_reference_data_app
    rw [hrows]
    simp [loadRowsApp, refStep_app, hd, hl, hc]
  · intro tbl hd hl hc
    exact ⟨tbl.rows.foldl refStep_app_ok [], loadRowsApp_ok tbl hd hl hc tbl.rows []⟩
  · intro tbl m r hy d l
    rw [lookup2_refStep_test, hy]

/-- Witness for C4's amended statement at concrete tables. -/
theorem c4_witness :
    load_reference_data_app
        ⟨false, true, true, [⟨some "М", some "Отлично", some "d"⟩]⟩
      = .error "Дисциплина" ∧
    load_reference_data_app
        ⟨true, false, true, [⟨some "М", some "Отлично", some "d"⟩]⟩
      = .error "Уровень_оценки" ∧
    load_reference_data_app
        ⟨true, true, false, [⟨some "М", some "Отлично", some "d"⟩]⟩
      = .error "Описание_навыков" ∧
    (∃ m, load_reference_data_app
        ⟨true, true, true, [⟨some "М", some "Passed", some "d"⟩]⟩ = .ok m) ∧
    lookup2 (refStep_test ⟨true, true, true, []⟩ [] ⟨some "М", some "Passed", some "d"⟩)
        "М" "Отлично"
      = lookup2 [] "М" "Отлично" := by
  refine ⟨?_, ?_, ?_, ?_, ?_⟩
  · exact c4_error_handling_amended.1
      ⟨false, true, true, [⟨some "М", some "Отлично", some "d"⟩]⟩
      ⟨some "М", some "Отлично", some "d"⟩ [] rfl rfl
  · exact c4_error_handling_amended.2.1
      ⟨true, false, true, [⟨some "М", some "Отлично", some "d"⟩]⟩
      ⟨some "М", some "Отлично", some "d"⟩ [] rfl rfl rfl
  · exact c4_error_handling_amended.2.2.1
      ⟨true, true, false, [⟨some "М", some "Отлично", some "d"⟩]⟩
      ⟨some "М", some "Отлично", some "d"⟩ [] rfl rfl rfl rfl
  · exact c4_error_handling_amended.2.2.2.1
      ⟨true, true, true, [⟨some "М", some "Passed", some "d"⟩]⟩ rfl rfl rfl
  · exact c4_error_handling_amended.2.2.2.2
      ⟨true, true, true, []⟩ [] ⟨some "М", some "Passed", some "d"⟩
      (by decide) "М" "Отлично"

/-! ### Output-frame helper lemmas -/

theorem forall2_zipWith_exists {α β γ : Type} (f : α → β → γ) :
    ∀ (as : List α) (bs : List β), as.length = bs.length →
      List.Forall₂ (fun a c => ∃ b, c = f a b) as (List.zipWith f as bs) := by
  intro as
  induction as with
  | nil => intro bs h; exact List.Forall₂.nil
  | cons a at2 ih =>
    intro bs h
    cases bs with
    | nil => simp at h
    | cons b bt =>
      exact List.Forall₂.cons ⟨b, rfl⟩ (ih bt (by simpa using h))

theorem forall2_strengthen_left {α β : Type} {R : α → β → Prop} {Q : α → Prop} :
    ∀ {as : List α} {bs : List β}, List.Forall₂ R as bs → (∀ a ∈ as, Q a) →
      List.Forall₂ (fun a b => Q a ∧ R a b) as bs := by
  intro as bs h
  induction h with
  | nil => intro _; exact List.Forall₂.nil
  | @cons a b at2 bt hr ht ih =>
    intro hq
    exact List.Forall₂.cons ⟨hq a (by simp), hr⟩
      (ih (fun x hx => hq x (by simp [hx])))

/-- Counterexample to C7: src/streamlit_app.py does not drop the
short-display-name helper columns — a table with a `Название Дисциплины 1`
column keeps it in the output. -/
theorem c7_counterexample_app_keeps_helper :
    (process_student_data_app
        ⟨[shortNameCol 1], [[(shortNameCol 1, some "мат")]]⟩ []).1.columns
      = [shortNameCol 1, resultCol] ∧
    shortNameCol 1 ∈ (process_student_data_app
        ⟨[shortNameCol 1], [[(shortNameCol 1, some "мат")]]⟩ []).1.columns := by
  exact ⟨rfl, by decide⟩

/-- C7 amended: both matchers emit one output row per input record
(proved separately, see the length lemmas used by C3), each identical to
its input row plus the appended result column; src/test.py additionally
drops every column whose name starts with the short-display-name prefix,
while src/streamlit_app.py keeps all input columns.  For src/test.py the
rows are assumed well-formed (each row has exactly the table's columns,
the data-frame invariant) and the result column is assumed fresh. -/
theorem c7_frame_amended :
    (∀ (tbl : Table) (gm : GradeMapT),
      resultCol ∉ tbl.columns →
      (∀ r ∈ tbl.rows, r.map Prod.fst = tbl.columns) →
      (process_student_data_test tbl gm).1.columns =
        (tbl.columns ++ [resultCol]).filter
          (fun c => ! pyStartsWith c "Название Дисциплины ") ∧
      List.Forall₂ (fun rin rout =>
          (∀ c, c ≠ resultCol → pyStartsWith c "Название Дисциплины " = false →
            lookupA rout c = lookupA rin c) ∧
          (∃ s, lookupA rout resultCol = some (some s)) ∧
          (∀ c, pyStartsWith c "Название Дисциплины " = true →
            lookupA rout c = none))
        tbl.rows (process_student_data_test tbl gm).1.rows)
    ∧ (∀ (tbl : Table) (gm : GradeMapA),
      resultCol ∉ tbl.columns →
      (process_student_data_app tbl gm).1.columns = tbl.columns ++ [resultCol] ∧
      List.Forall₂ (fun rin rout =>
          (∀ c, c ≠ resultCol → lookupA rout c = lookupA rin c) ∧
          (∃ s, lookupA rout resultCol = some (some s)))
        tbl.rows (process_student_data_app tbl gm).1.rows) := by
  constructor
  · intro tbl gm hres hwf
    have hbase : List.Forall₂ (fun r c => ∃ s, c = setA r resultCol (some s))
        tbl.rows (List.zipWith (fun r s => setA r resultCol (some s)) tbl.rows
          (processRows_test tbl.columns gm 0 tbl.rows).1) :=
      forall2_zipWith_exists _ tbl.rows _
        (processRows_test_length tbl.columns gm 0 tbl.rows).symm
    unfold process_student_data_test
    dsimp only
    rw [if_neg hres]
    by_cases hdrop : (tbl.columns ++ [resultCol]).filter
        (fun c => pyStartsWith c "Название Дисциплины ") ≠ []
    · rw [if_pos hdrop]
      refine ⟨rfl, ?_⟩
      rw [List.forall₂_map_right_iff]
      refine hbase.imp ?_
      rintro r c ⟨s, rfl⟩
      refine ⟨?_, ?_, ?_⟩
      · intro c' hc' hpf
        rw [lookupA_filter_key (setA r resultCol (some s))
              (fun k => ! pyStartsWith k "Название Дисциплины ") c',
            lookupA_setA]
        rw [if_neg (Ne.symm hc')]
        simp [hpf]
      · refine ⟨s, ?_⟩
        rw [lookupA_filter_key (setA r resultCol (some s))
              (fun k => ! pyStartsWith k "Название Дисциплины ") resultCol,
            lookupA_setA]
        have hrk : pyStartsWith resultCol "Название Дисциплины " = false := by decide
        simp [hrk]
      · intro c' hpf
        rw [lookupA_filter_key (setA r resultCol (some s))
              (fun k => ! pyStartsWith k "Название Дисциплины ") c']
        simp [hpf]
    · rw [if_neg hdrop]
      rw [not_ne_iff] at hdrop
      have hall : ∀ c ∈ tbl.columns ++ [resultCol],
          pyStartsWith c "Название Дисциплины " = false := by
        intro c hc
        have h1 := List.filter_eq_nil_iff.mp hdrop c hc
        simpa using h1
      constructor
      · refine (List.filter_eq_self.mpr ?_).symm
        intro c hc
        simp [hall c hc]
      · have hstrong := forall2_strengthen_left hbase hwf
        refine hstrong.imp ?_
        rintro r c ⟨hkeys, s, rfl⟩
        refine ⟨?_, ?_, ?_⟩
        · intro c' hc' hpf
          rw [lookupA_setA, if_neg (Ne.symm hc')]
        · exact ⟨s, by rw [lookupA_setA]; simp⟩
        · intro c' hpf
          have hc'nin : c' ∉ tbl.columns ++ [resultCol] := by
            intro hmem
            rw [hall c' hmem] at hpf
            exact absurd hpf (by simp)
          rw [lookupA_eq_none_iff, keys_setA]
          have hcont : containsA r resultCol = false := by
            have : lookupA r resultCol = none := by
              rw [lookupA_eq_none_iff, hkeys]
              exact hres
            simp [containsA, this]
          rw [hcont]
          simp only [Bool.false_eq_true, if_false]
          rw [hkeys]
          exact hc'nin
  · intro tbl gm hres
    have hbase : List.Forall₂ (fun r c => ∃ s, c = setA r resultCol (some s))
        tbl.rows (List.zipWith (fun r s => setA r resultCol (some s)) tbl.rows
          (processRows_app tbl.columns gm 0 tbl.rows).1) :=
      forall2_zipWith_exists _ tbl.rows _
        (processRows_app_length tbl.columns gm 0 tbl.rows).symm
    unfold process_student_data_app
    dsimp only
    rw [if_neg hres]
    refine ⟨rfl, ?_⟩
    refine hbase.imp ?_
    rintro r c ⟨s, rfl⟩
    refine ⟨?_, ?_⟩
    · intro c' hc'
      rw [lookupA_setA, if_neg (Ne.symm hc')]
    · exact ⟨s, by rw [lookupA_setA]; simp⟩

/-- Witness for C7's amended statement: on a concrete table with one
helper column, src/test.py's output drops it while src/streamlit_app.py's
output keeps it, both appending the result column. -/
theorem c7_witness :
    (process_student_data_test
        ⟨[disciplineCol 1, shortNameCol 1],
         [[(disciplineCol 1, some "А"), (shortNameCol 1, some "а")]]⟩
        []).1.columns = [disciplineCol 1, resultCol] ∧
    (process_student_data_app
        ⟨[disciplineCol 1, shortNameCol 1],
         [[(disciplineCol 1, some "А"), (shortNameCol 1, some "а")]]⟩
        []).1.columns = [disciplineCol 1, shortNameCol 1, resultCol] := by
  constructor
  · exact (c7_frame_amended.1
      ⟨[disciplineCol 1, shortNameCol 1],
       [[(disciplineCol 1, some "А"), (shortNameCol 1, some "а")]]⟩
      [] (by decide) (by decide)).1.trans (by decide)
  · exact (c7_frame_amended.2
      ⟨[disciplineCol 1, shortNameCol 1],
       [[(disciplineCol 1, some "А"), (shortNameCol 1, some "а")]]⟩
      [] (by decide)).1.trans (by decide)

end Cert
